import Mathlib

/-! Hotel backend: routing table, schema declarations and request validation.

A shallow embedding of the three Go sources of the backend:

* `backend/routes/routes.go`: `SetupRoutes`, the gin route table;
* `backend/models/models.go`: the gorm entity declarations;
* `backend/responses/responses.go`: the JSON envelope and the request bodies
  with their `binding` constraints.

The Go sources are declarative: struct declarations carrying `json`, `gorm`
and `binding` tags, and one function registering routes.  Each struct is
embedded as the list of its fields with their tags, in declaration order; the
libraries that read the tags (gin's router groups, the validator behind gin's
`binding` tag, `encoding/json`) are embedded as functions over those lists.
-/

set_option autoImplicit false

namespace Hotel

/-! ## Routing (`backend/routes/routes.go`) -/

/-- HTTP methods used by `SetupRoutes`. -/
inductive Method
  | GET | POST | PUT | DELETE
  deriving DecidableEq, Repr

/-- One registered route: method, absolute path pattern and handler name. -/
structure Route where
  method : Method
  path : String
  handler : String
  deriving DecidableEq, Repr

/-- gin `joinPaths`: an empty relative path leaves the absolute path as it is;
otherwise the result is `path.Join(absolutePath, relativePath)`.  Every relative
path passed by `SetupRoutes` is a cleaned path that starts with a slash and has
no trailing slash, for which `path.Join` is the relative path itself under the
root `/` and plain concatenation under any other base. -/
def joinPaths (absolutePath relativePath : String) : String :=
  if relativePath = "" then absolutePath
  else if absolutePath = "/" then relativePath
  else absolutePath ++ relativePath

/-- gin `RouterGroup`, reduced to the base path it prepends. -/
structure RouterGroup where
  basePath : String
  deriving Repr

namespace RouterGroup

/-- The sub-group `group.Group(relativePath)`, under the joined base path. -/
def Group (g : RouterGroup) (relativePath : String) : RouterGroup :=
  ⟨joinPaths g.basePath relativePath⟩

/-- The route added by `group.handle(method, relativePath, handler)`. -/
def handle (g : RouterGroup) (m : Method) (relativePath handler : String) : Route :=
  ⟨m, joinPaths g.basePath relativePath, handler⟩

def GET (g : RouterGroup) (relativePath handler : String) : Route :=
  g.handle .GET relativePath handler

def POST (g : RouterGroup) (relativePath handler : String) : Route :=
  g.handle .POST relativePath handler

def PUT (g : RouterGroup) (relativePath handler : String) : Route :=
  g.handle .PUT relativePath handler

def DELETE (g : RouterGroup) (relativePath handler : String) : Route :=
  g.handle .DELETE relativePath handler

end RouterGroup

/-- The routes that `SetupRoutes(router)` registers on a fresh engine (whose root
group has base path `/`), in registration order. -/
def SetupRoutes : List Route :=
  let router : RouterGroup := ⟨"/"⟩
  let v1 := router.Group "/api/v1"
  let guests := v1.Group "/guests"
  let reservations := v1.Group "/reservations"
  let rooms := v1.Group "/rooms"
  let serviceRequests := v1.Group "/service-requests"
  let roomServiceOrders := v1.Group "/room-service-orders"
  let housekeepingRequests := v1.Group "/housekeeping-requests"
  let maintenanceIssues := v1.Group "/maintenance-issues"
  let menuItems := v1.Group "/menu-items"
  let checkIns := v1.Group "/check-ins"
  let checkOuts := v1.Group "/check-outs"
  let dashboard := v1.Group "/dashboard"
  let inRoomTablet := v1.Group "/in-room-tablet"
  let staff := v1.Group "/staff"
  [ -- Health check
    router.GET "/health" "HealthCheck",
    -- Guest routes
    guests.GET "" "GetGuests",
    guests.GET "/:id" "GetGuestByID",
    guests.POST "" "CreateGuest",
    guests.PUT "/:id" "UpdateGuest",
    guests.DELETE "/:id" "DeleteGuest",
    guests.GET "/:id/history" "GetGuestHistory",
    guests.GET "/:id/preferences" "GetGuestPreferences",
    guests.GET "/:id/ai-insights" "GetGuestAIInsights",
    -- Reservation routes
    reservations.GET "" "GetReservations",
    reservations.GET "/:id" "GetReservationByID",
    reservations.POST "" "CreateReservation",
    reservations.PUT "/:id" "UpdateReservation",
    reservations.DELETE "/:id" "DeleteReservation",
    reservations.GET "/guest/:guestID" "GetReservationsByGuest",
    reservations.GET "/room/:roomID" "GetReservationsByRoom",
    -- Room routes
    rooms.GET "" "GetRooms",
    rooms.GET "/:id" "GetRoomByID",
    rooms.POST "" "CreateRoom",
    rooms.PUT "/:id" "UpdateRoom",
    rooms.DELETE "/:id" "DeleteRoom",
    rooms.GET "/available" "GetAvailableRooms",
    rooms.PUT "/:id/status" "UpdateRoomStatus",
    -- Service Request routes
    serviceRequests.GET "" "GetServiceRequests",
    serviceRequests.GET "/:id" "GetServiceRequestByID",
    serviceRequests.POST "" "CreateServiceRequest",
    serviceRequests.PUT "/:id" "UpdateServiceRequest",
    serviceRequests.DELETE "/:id" "DeleteServiceRequest",
    serviceRequests.GET "/reservation/:reservationID" "GetServiceRequestsByReservation",
    serviceRequests.GET "/guest/:guestID" "GetServiceRequestsByGuest",
    serviceRequests.GET "/status/:status" "GetServiceRequestsByStatus",
    -- Room Service Order routes
    roomServiceOrders.GET "" "GetRoomServiceOrders",
    roomServiceOrders.GET "/:id" "GetRoomServiceOrderByID",
    roomServiceOrders.POST "" "CreateRoomServiceOrder",
    roomServiceOrders.PUT "/:id" "UpdateRoomServiceOrder",
    roomServiceOrders.DELETE "/:id" "DeleteRoomServiceOrder",
    roomServiceOrders.GET "/reservation/:reservationID" "GetRoomServiceOrdersByReservation",
    roomServiceOrders.PUT "/:id/status" "UpdateRoomServiceOrderStatus",
    -- Housekeeping Request routes
    housekeepingRequests.GET "" "GetHousekeepingRequests",
    housekeepingRequests.GET "/:id" "GetHousekeepingRequestByID",
    housekeepingRequests.POST "" "CreateHousekeepingRequest",
    housekeepingRequests.PUT "/:id" "UpdateHousekeepingRequest",
    housekeepingRequests.DELETE "/:id" "DeleteHousekeepingRequest",
    housekeepingRequests.GET "/reservation/:reservationID" "GetHousekeepingRequestsByReservation",
    housekeepingRequests.GET "/status/:status" "GetHousekeepingRequestsByStatus",
    -- Maintenance Issue routes
    maintenanceIssues.GET "" "GetMaintenanceIssues",
    maintenanceIssues.GET "/:id" "GetMaintenanceIssueByID",
    maintenanceIssues.POST "" "CreateMaintenanceIssue",
    maintenanceIssues.PUT "/:id" "UpdateMaintenanceIssue",
    maintenanceIssues.DELETE "/:id" "DeleteMaintenanceIssue",
    maintenanceIssues.GET "/reservation/:reservationID" "GetMaintenanceIssuesByReservation",
    maintenanceIssues.GET "/status/:status" "GetMaintenanceIssuesByStatus",
    -- Menu Item routes
    menuItems.GET "" "GetMenuItems",
    menuItems.GET "/:id" "GetMenuItemByID",
    menuItems.POST "" "CreateMenuItem",
    menuItems.PUT "/:id" "UpdateMenuItem",
    menuItems.DELETE "/:id" "DeleteMenuItem",
    menuItems.GET "/category/:category" "GetMenuItemsByCategory",
    -- Check-In routes
    checkIns.GET "" "GetCheckIns",
    checkIns.GET "/:id" "GetCheckInByID",
    checkIns.POST "" "CreateCheckIn",
    checkIns.PUT "/:id" "UpdateCheckIn",
    checkIns.GET "/reservation/:reservationID" "GetCheckInByReservation",
    -- Check-Out routes
    checkOuts.GET "" "GetCheckOuts",
    checkOuts.GET "/:id" "GetCheckOutByID",
    checkOuts.POST "" "CreateCheckOut",
    checkOuts.PUT "/:id" "UpdateCheckOut",
    checkOuts.GET "/reservation/:reservationID" "GetCheckOutByReservation",
    -- Dashboard routes
    dashboard.GET "/stats" "GetDashboardStats",
    dashboard.GET "/room-status" "GetRoomStatusSummary",
    dashboard.GET "/service-requests-summary" "GetServiceRequestsSummary",
    dashboard.GET "/revenue" "GetRevenueStats",
    -- In-Room Tablet routes
    inRoomTablet.GET "/reservation/:reservationID" "GetInRoomTabletReservation",
    inRoomTablet.GET "/menu" "GetInRoomTabletMenu",
    inRoomTablet.POST "/room-service-order" "CreateInRoomTabletRoomServiceOrder",
    inRoomTablet.POST "/housekeeping-request" "CreateInRoomTabletHousekeepingRequest",
    inRoomTablet.POST "/maintenance-issue" "CreateInRoomTabletMaintenanceIssue",
    -- Staff routes
    staff.GET "" "GetStaff",
    staff.GET "/:id" "GetStaffByID",
    staff.POST "" "CreateStaff",
    staff.PUT "/:id" "UpdateStaff",
    staff.DELETE "/:id" "DeleteStaff",
    staff.GET "/role/:role" "GetStaffByRole" ]

/-- Whether the table has a route with this method and path pattern. -/
def registered (table : List Route) (m : Method) (path : String) : Bool :=
  table.any (fun r => decide (r.method = m) && decide (r.path = path))

/-- The method and path of every route, in registration order. -/
def signatures (table : List Route) : List (Method × String) :=
  table.map (fun r => (r.method, r.path))

/-- Whether the characters of `pre` are the first characters of `s`. -/
def startsWith (s pre : String) : Bool :=
  pre.toList.isPrefixOf s.toList

/-- The resource groups of `SetupRoutes` that stand for one entity: every group
under `/api/v1` except `dashboard` and `in-room-tablet`. -/
def resourceGroups : List String :=
  ["guests", "reservations", "rooms", "service-requests", "room-service-orders",
   "housekeeping-requests", "maintenance-issues", "menu-items", "check-ins",
   "check-outs", "staff"]

/-- The five CRUD routes of the resource group mounted at `base`. -/
def crudRoutes (base : String) : List (Method × String) :=
  [(.GET, base), (.GET, base ++ "/:id"), (.POST, base), (.PUT, base ++ "/:id"),
   (.DELETE, base ++ "/:id")]

/-- Whether all five CRUD routes of the group `g` under `/api/v1` are in the table. -/
def hasCRUD (table : List Route) (g : String) : Bool :=
  (crudRoutes ("/api/v1/" ++ g)).all (fun mp => registered table mp.1 mp.2)

/-- The routes of the table that lie in the group mounted at `base`: on the group
root or below it. -/
def routesUnder (table : List Route) (base : String) : List Route :=
  table.filter (fun r => decide (r.path = base) || startsWith r.path (base ++ "/"))

/-- The liveness route, the one route registered on the engine root. -/
def healthRoute : Route := ⟨.GET, "/health", "HealthCheck"⟩

/-- The entity group that each in-room-tablet route works on. -/
def tabletEntityGroups : List (Method × String × String) :=
  [(.GET, "/api/v1/in-room-tablet/reservation/:reservationID", "reservations"),
   (.GET, "/api/v1/in-room-tablet/menu", "menu-items"),
   (.POST, "/api/v1/in-room-tablet/room-service-order", "room-service-orders"),
   (.POST, "/api/v1/in-room-tablet/housekeeping-request", "housekeeping-requests"),
   (.POST, "/api/v1/in-room-tablet/maintenance-issue", "maintenance-issues")]

/-! ## Struct declarations and their tags -/

/-- The Go types that occur as field types in the models and request bodies. -/
inductive GoType
  | uint | int | int64 | float64 | string | bool
  | time                       -- time.Time
  | timePtr                    -- *time.Time
  | jsonSlice                  -- datatypes.JSONSlice
  | iface                      -- interface{}
  | named (struct : String)    -- a struct type of the repository
  | sliceOf (elem : String)    -- a slice, by the name of its element type
  deriving DecidableEq, Repr

/-- The `gorm:"..."` settings that occur in the models. -/
inductive GormTag
  | primaryKey
  | uniqueIndex
  | foreignKey (column : String)
  | colType (sql : String)
  deriving DecidableEq, Repr

/-- The `binding:"..."` constraints: the ones the request bodies use (`required`,
`email`, `min=n`) and `dive`, the constraint that sends the validator into the
elements of a slice. -/
inductive Tag
  | required
  | email
  | min (n : Int)
  | dive
  deriving DecidableEq, Repr

/-- One struct field as declared: Go name, Go type, JSON key, whether the JSON
tag says `omitempty`, the gorm settings and the binding constraints. -/
structure Field where
  name : String
  type : GoType
  json : String
  omitempty : Bool
  gorm : List GormTag
  binding : List Tag
  deriving DecidableEq, Repr

/-! ### Entities (`backend/models/models.go`) -/

def Guest.schema : List Field :=
  [ ⟨"ID", .uint, "id", false, [.primaryKey], []⟩,
    ⟨"Name", .string, "name", false, [], []⟩,
    ⟨"Email", .string, "email", false, [.uniqueIndex], []⟩,
    ⟨"Phone", .string, "phone", false, [], []⟩,
    ⟨"Nationality", .string, "nationality", false, [], []⟩,
    ⟨"IDType", .string, "id_type", false, [], []⟩,
    ⟨"IDNumber", .string, "id_number", false, [], []⟩,
    ⟨"JoinDate", .time, "join_date", false, [], []⟩,
    ⟨"CreatedAt", .time, "created_at", false, [], []⟩,
    ⟨"UpdatedAt", .time, "updated_at", false, [], []⟩,
    -- Relations
    ⟨"Reservations", .sliceOf "Reservation", "reservations", true, [.foreignKey "GuestID"], []⟩,
    ⟨"ServiceRequests", .sliceOf "ServiceRequest", "service_requests", true,
      [.foreignKey "GuestID"], []⟩,
    ⟨"Preferences", .named "GuestPreferences", "preferences", true, [.foreignKey "GuestID"], []⟩,
    ⟨"AIInsights", .named "GuestAIInsights", "ai_insights", true, [.foreignKey "GuestID"], []⟩ ]

def GuestPreferences.schema : List Field :=
  [ ⟨"ID", .uint, "id", false, [.primaryKey], []⟩,
    ⟨"GuestID", .uint, "guest_id", false, [.uniqueIndex], []⟩,
    ⟨"RoomFloors", .jsonSlice, "room_floors", false, [.colType "jsonb"], []⟩,
    ⟨"MealTypes", .jsonSlice, "meal_types", false, [.colType "jsonb"], []⟩,
    ⟨"RoomTypes", .jsonSlice, "room_types", false, [.colType "jsonb"], []⟩,
    ⟨"SpecialRequests", .jsonSlice, "special_requests", false, [.colType "jsonb"], []⟩,
    ⟨"CreatedAt", .time, "created_at", false, [], []⟩,
    ⟨"UpdatedAt", .time, "updated_at", false, [], []⟩ ]

def GuestAIInsights.schema : List Field :=
  [ ⟨"ID", .uint, "id", false, [.primaryKey], []⟩,
    ⟨"GuestID", .uint, "guest_id", false, [.uniqueIndex], []⟩,
    ⟨"MealPreference", .string, "meal_preference", false, [], []⟩,
    ⟨"RoomPreference", .string, "room_preference", false, [], []⟩,
    ⟨"ServicePattern", .string, "service_pattern", false, [], []⟩,
    ⟨"RiskScore", .string, "risk_score", false, [], []⟩,
    ⟨"Recommendations", .jsonSlice, "recommendations", false, [.colType "jsonb"], []⟩,
    ⟨"Complaints", .jsonSlice, "complaints", false, [.colType "jsonb"], []⟩,
    ⟨"CreatedAt", .time, "created_at", false, [], []⟩,
    ⟨"UpdatedAt", .time, "updated_at", false, [], []⟩ ]

def Room.schema : List Field :=
  [ ⟨"ID", .uint, "id", false, [.primaryKey], []⟩,
    ⟨"RoomNumber", .string, "room_number", false, [.uniqueIndex], []⟩,
    ⟨"RoomType", .string, "room_type", false, [], []⟩,
    ⟨"Floor", .int, "floor", false, [], []⟩,
    ⟨"Capacity", .int, "capacity", false, [], []⟩,
    ⟨"PricePerNight", .float64, "price_per_night", false, [], []⟩,
    ⟨"Status", .string, "status", false, [], []⟩,
    ⟨"CreatedAt", .time, "created_at", false, [], []⟩,
    ⟨"UpdatedAt", .time, "updated_at", false, [], []⟩,
    -- Relations
    ⟨"Reservations", .sliceOf "Reservation", "reservations", true, [.foreignKey "RoomID"], []⟩ ]

def Reservation.schema : List Field :=
  [ ⟨"ID", .uint, "id", false, [.primaryKey], []⟩,
    ⟨"BookingID", .string, "booking_id", false, [.uniqueIndex], []⟩,
    ⟨"GuestID", .uint, "guest_id", false, [], []⟩,
    ⟨"RoomID", .uint, "room_id", false, [], []⟩,
    ⟨"CheckInDate", .time, "check_in_date", false, [], []⟩,
    ⟨"CheckOutDate", .time, "check_out_date", false, [], []⟩,
    ⟨"Nights", .int, "nights", false, [], []⟩,
    ⟨"TotalPrice", .float64, "total_price", false, [], []⟩,
    ⟨"PaidAmount", .float64, "paid_amount", false, [], []⟩,
    ⟨"Status", .string, "status", false, [], []⟩,
    ⟨"CreatedAt", .time, "created_at", false, [], []⟩,
    ⟨"UpdatedAt", .time, "updated_at", false, [], []⟩,
    -- Relations
    ⟨"Guest", .named "Guest", "guest", true, [.foreignKey "GuestID"], []⟩,
    ⟨"Room", .named "Room", "room", true, [.foreignKey "RoomID"], []⟩,
    ⟨"ServiceRequests", .sliceOf "ServiceRequest", "service_requests", true,
      [.foreignKey "ReservationID"], []⟩ ]

def ServiceRequest.schema : List Field :=
  [ ⟨"ID", .uint, "id", false, [.primaryKey], []⟩,
    ⟨"ReservationID", .uint, "reservation_id", false, [], []⟩,
    ⟨"GuestID", .uint, "guest_id", false, [], []⟩,
    ⟨"ServiceType", .string, "service_type", false, [], []⟩,
    ⟨"Status", .string, "status", false, [], []⟩,
    ⟨"Priority", .string, "priority", false, [], []⟩,
    ⟨"Description", .string, "description", false, [.colType "text"], []⟩,
    ⟨"Notes", .string, "notes", false, [.colType "text"], []⟩,
    ⟨"AssignedTo", .string, "assigned_to", false, [], []⟩,
    ⟨"RequestedAt", .time, "requested_at", false, [], []⟩,
    ⟨"CompletedAt", .timePtr, "completed_at", false, [], []⟩,
    ⟨"CreatedAt", .time, "created_at", false, [], []⟩,
    ⟨"UpdatedAt", .time, "updated_at", false, [], []⟩,
    -- Relations
    ⟨"Reservation", .named "Reservation", "reservation", true, [.foreignKey "ReservationID"], []⟩,
    ⟨"Guest", .named "Guest", "guest", true, [.foreignKey "GuestID"], []⟩ ]

def RoomServiceOrder.schema : List Field :=
  [ ⟨"ID", .uint, "id", false, [.primaryKey], []⟩,
    ⟨"OrderID", .string, "order_id", false, [.uniqueIndex], []⟩,
    ⟨"ReservationID", .uint, "reservation_id", false, [], []⟩,
    ⟨"GuestID", .uint, "guest_id", false, [], []⟩,
    ⟨"Items", .jsonSlice, "items", false, [.colType "jsonb"], []⟩,
    ⟨"Subtotal", .float64, "subtotal", false, [], []⟩,
    ⟨"DeliveryFee", .float64, "delivery_fee", false, [], []⟩,
    ⟨"Total", .float64, "total", false, [], []⟩,
    ⟨"Status", .string, "status", false, [], []⟩,
    ⟨"SpecialNotes", .string, "special_notes", false, [.colType "text"], []⟩,
    ⟨"OrderedAt", .time, "ordered_at", false, [], []⟩,
    ⟨"DeliveredAt", .timePtr, "delivered_at", false, [], []⟩,
    ⟨"CreatedAt", .time, "created_at", false, [], []⟩,
    ⟨"UpdatedAt", .time, "updated_at", false, [], []⟩,
    -- Relations
    ⟨"Reservation", .named "Reservation", "reservation", true, [.foreignKey "ReservationID"], []⟩,
    ⟨"Guest", .named "Guest", "guest", true, [.foreignKey "GuestID"], []⟩ ]

def HousekeepingRequest.schema : List Field :=
  [ ⟨"ID", .uint, "id", false, [.primaryKey], []⟩,
    ⟨"ReservationID", .uint, "reservation_id", false, [], []⟩,
    ⟨"GuestID", .uint, "guest_id", false, [], []⟩,
    ⟨"RequestType", .string, "request_type", false, [], []⟩,
    ⟨"Description", .string, "description", false, [.colType "text"], []⟩,
    ⟨"ScheduleTime", .string, "schedule_time", false, [], []⟩,
    ⟨"Status", .string, "status", false, [], []⟩,
    ⟨"AssignedTo", .string, "assigned_to", false, [], []⟩,
    ⟨"RequestedAt", .time, "requested_at", false, [], []⟩,
    ⟨"CompletedAt", .timePtr, "completed_at", false, [], []⟩,
    ⟨"CreatedAt", .time, "created_at", false, [], []⟩,
    ⟨"UpdatedAt", .time, "updated_at", false, [], []⟩,
    -- Relations
    ⟨"Reservation", .named "Reservation", "reservation", true, [.foreignKey "ReservationID"], []⟩,
    ⟨"Guest", .named "Guest", "guest", true, [.foreignKey "GuestID"], []⟩ ]

def MaintenanceIssue.schema : List Field :=
  [ ⟨"ID", .uint, "id", false, [.primaryKey], []⟩,
    ⟨"ReservationID", .uint, "reservation_id", false, [], []⟩,
    ⟨"GuestID", .uint, "guest_id", false, [], []⟩,
    ⟨"IssueType", .string, "issue_type", false, [], []⟩,
    ⟨"Description", .string, "description", false, [.colType "text"], []⟩,
    ⟨"Status", .string, "status", false, [], []⟩,
    ⟨"Priority", .string, "priority", false, [], []⟩,
    ⟨"AssignedTo", .string, "assigned_to", false, [], []⟩,
    ⟨"ReportedAt", .time, "reported_at", false, [], []⟩,
    ⟨"ResolvedAt", .timePtr, "resolved_at", false, [], []⟩,
    ⟨"CreatedAt", .time, "created_at", false, [], []⟩,
    ⟨"UpdatedAt", .time, "updated_at", false, [], []⟩,
    -- Relations
    ⟨"Reservation", .named "Reservation", "reservation", true, [.foreignKey "ReservationID"], []⟩,
    ⟨"Guest", .named "Guest", "guest", true, [.foreignKey "GuestID"], []⟩ ]

def MenuItem.schema : List Field :=
  [ ⟨"ID", .uint, "id", false, [.primaryKey], []⟩,
    ⟨"Name", .string, "name", false, [], []⟩,
    ⟨"Description", .string, "description", false, [.colType "text"], []⟩,
    ⟨"Price", .float64, "price", false, [], []⟩,
    ⟨"Category", .string, "category", false, [], []⟩,
    ⟨"Available", .bool, "available", false, [], []⟩,
    ⟨"CreatedAt", .time, "created_at", false, [], []⟩,
    ⟨"UpdatedAt", .time, "updated_at", false, [], []⟩ ]

def Staff.schema : List Field :=
  [ ⟨"ID", .uint, "id", false, [.primaryKey], []⟩,
    ⟨"Name", .string, "name", false, [], []⟩,
    ⟨"Email", .string, "email", false, [.uniqueIndex], []⟩,
    ⟨"Phone", .string, "phone", false, [], []⟩,
    ⟨"Role", .string, "role", false, [], []⟩,
    ⟨"Status", .string, "status", false, [], []⟩,
    ⟨"CreatedAt", .time, "created_at", false, [], []⟩,
    ⟨"UpdatedAt", .time, "updated_at", false, [], []⟩ ]

def CheckIn.schema : List Field :=
  [ ⟨"ID", .uint, "id", false, [.primaryKey], []⟩,
    ⟨"ReservationID", .uint, "reservation_id", false, [.uniqueIndex], []⟩,
    ⟨"GuestID", .uint, "guest_id", false, [], []⟩,
    ⟨"RoomID", .uint, "room_id", false, [], []⟩,
    ⟨"CheckInTime", .time, "check_in_time", false, [], []⟩,
    ⟨"IDVerified", .bool, "id_verified", false, [], []⟩,
    ⟨"KeyIssued", .bool, "key_issued", false, [], []⟩,
    ⟨"DocumentsSigned", .bool, "documents_signed", false, [], []⟩,
    ⟨"Notes", .string, "notes", false, [.colType "text"], []⟩,
    ⟨"CreatedAt", .time, "created_at", false, [], []⟩,
    ⟨"UpdatedAt", .time, "updated_at", false, [], []⟩,
    -- Relations
    ⟨"Reservation", .named "Reservation", "reservation", true, [.foreignKey "ReservationID"], []⟩,
    ⟨"Guest", .named "Guest", "guest", true, [.foreignKey "GuestID"], []⟩,
    ⟨"Room", .named "Room", "room", true, [.foreignKey "RoomID"], []⟩ ]

def CheckOut.schema : List Field :=
  [ ⟨"ID", .uint, "id", false, [.primaryKey], []⟩,
    ⟨"ReservationID", .uint, "reservation_id", false, [.uniqueIndex], []⟩,
    ⟨"GuestID", .uint, "guest_id", false, [], []⟩,
    ⟨"RoomID", .uint, "room_id", false, [], []⟩,
    ⟨"CheckOutTime", .time, "check_out_time", false, [], []⟩,
    ⟨"RoomCondition", .string, "room_condition", false, [], []⟩,
    ⟨"Charges", .float64, "charges", false, [], []⟩,
    ⟨"Notes", .string, "notes", false, [.colType "text"], []⟩,
    ⟨"CreatedAt", .time, "created_at", false, [], []⟩,
    ⟨"UpdatedAt", .time, "updated_at", false, [], []⟩,
    -- Relations
    ⟨"Reservation", .named "Reservation", "reservation", true, [.foreignKey "ReservationID"], []⟩,
    ⟨"Guest", .named "Guest", "guest", true, [.foreignKey "GuestID"], []⟩,
    ⟨"Room", .named "Room", "room", true, [.foreignKey "RoomID"], []⟩ ]

/-! ### Envelope and request bodies (`backend/responses/responses.go`) -/

def APIResponse.schema : List Field :=
  [ ⟨"Success", .bool, "success", false, [], []⟩,
    ⟨"Message", .string, "message", false, [], []⟩,
    ⟨"Data", .iface, "data", true, [], []⟩,
    ⟨"Error", .string, "error", true, [], []⟩ ]

def PaginationMeta.schema : List Field :=
  [ ⟨"Page", .int, "page", false, [], []⟩,
    ⟨"PageSize", .int, "page_size", false, [], []⟩,
    ⟨"Total", .int64, "total", false, [], []⟩,
    ⟨"TotalPages", .int, "total_pages", false, [], []⟩ ]

def PaginatedResponse.schema : List Field :=
  [ ⟨"Success", .bool, "success", false, [], []⟩,
    ⟨"Message", .string, "message", false, [], []⟩,
    ⟨"Data", .iface, "data", false, [], []⟩,
    ⟨"Meta", .named "PaginationMeta", "meta", false, [], []⟩ ]

def CreateGuestRequest.schema : List Field :=
  [ ⟨"Name", .string, "name", false, [], [.required]⟩,
    ⟨"Email", .string, "email", false, [], [.required, .email]⟩,
    ⟨"Phone", .string, "phone", false, [], [.required]⟩,
    ⟨"Nationality", .string, "nationality", false, [], [.required]⟩,
    ⟨"IDType", .string, "id_type", false, [], [.required]⟩,
    ⟨"IDNumber", .string, "id_number", false, [], [.required]⟩ ]

def CreateReservationRequest.schema : List Field :=
  [ ⟨"GuestID", .uint, "guest_id", false, [], [.required]⟩,
    ⟨"RoomID", .uint, "room_id", false, [], [.required]⟩,
    ⟨"CheckInDate", .time, "check_in_date", false, [], [.required]⟩,
    ⟨"CheckOutDate", .time, "check_out_date", false, [], [.required]⟩,
    ⟨"TotalPrice", .float64, "total_price", false, [], [.required]⟩ ]

def CreateServiceRequestRequest.schema : List Field :=
  [ ⟨"ReservationID", .uint, "reservation_id", false, [], [.required]⟩,
    ⟨"GuestID", .uint, "guest_id", false, [], [.required]⟩,
    ⟨"ServiceType", .string, "service_type", false, [], [.required]⟩,
    ⟨"Priority", .string, "priority", false, [], [.required]⟩,
    ⟨"Description", .string, "description", false, [], [.required]⟩ ]

def CreateRoomServiceOrderRequest.schema : List Field :=
  [ ⟨"ReservationID", .uint, "reservation_id", false, [], [.required]⟩,
    ⟨"GuestID", .uint, "guest_id", false, [], [.required]⟩,
    ⟨"Items", .sliceOf "CreateRoomServiceOrderItemRequest", "items", false, [], [.required]⟩,
    ⟨"SpecialNotes", .string, "special_notes", false, [], []⟩ ]

def CreateRoomServiceOrderItemRequest.schema : List Field :=
  [ ⟨"MenuItemID", .uint, "menu_item_id", false, [], [.required]⟩,
    ⟨"Quantity", .int, "quantity", false, [], [.required, .min 1]⟩ ]

def CreateHousekeepingRequestRequest.schema : List Field :=
  [ ⟨"ReservationID", .uint, "reservation_id", false, [], [.required]⟩,
    ⟨"GuestID", .uint, "guest_id", false, [], [.required]⟩,
    ⟨"RequestType", .string, "request_type", false, [], [.required]⟩,
    ⟨"Description", .string, "description", false, [], [.required]⟩,
    ⟨"ScheduleTime", .string, "schedule_time", false, [], []⟩ ]

def CreateMaintenanceIssueRequest.schema : List Field :=
  [ ⟨"ReservationID", .uint, "reservation_id", false, [], [.required]⟩,
    ⟨"GuestID", .uint, "guest_id", false, [], [.required]⟩,
    ⟨"IssueType", .string, "issue_type", false, [], [.required]⟩,
    ⟨"Description", .string, "description", false, [], [.required]⟩ ]

def CreateCheckInRequest.schema : List Field :=
  [ ⟨"ReservationID", .uint, "reservation_id", false, [], [.required]⟩,
    ⟨"GuestID", .uint, "guest_id", false, [], [.required]⟩,
    ⟨"RoomID", .uint, "room_id", false, [], [.required]⟩,
    ⟨"IDVerified", .bool, "id_verified", false, [], []⟩,
    ⟨"KeyIssued", .bool, "key_issued", false, [], []⟩,
    ⟨"DocumentsSigned", .bool, "documents_signed", false, [], []⟩,
    ⟨"Notes", .string, "notes", false, [], []⟩ ]

def UpdateServiceRequestRequest.schema : List Field :=
  [ ⟨"Status", .string, "status", false, [], []⟩,
    ⟨"AssignedTo", .string, "assigned_to", false, [], []⟩,
    ⟨"Notes", .string, "notes", false, [], []⟩ ]

def UpdateMaintenanceIssueRequest.schema : List Field :=
  [ ⟨"Status", .string, "status", false, [], []⟩,
    ⟨"AssignedTo", .string, "assigned_to", false, [], []⟩,
    ⟨"Notes", .string, "notes", false, [], []⟩ ]

/-! ### Response projections (`backend/responses/responses.go`) -/

def GuestResponse.schema : List Field :=
  [ ⟨"ID", .uint, "id", false, [], []⟩,
    ⟨"Name", .string, "name", false, [], []⟩,
    ⟨"Email", .string, "email", false, [], []⟩,
    ⟨"Phone", .string, "phone", false, [], []⟩,
    ⟨"Nationality", .string, "nationality", false, [], []⟩,
    ⟨"IDType", .string, "id_type", false, [], []⟩,
    ⟨"IDNumber", .string, "id_number", false, [], []⟩,
    ⟨"JoinDate", .time, "join_date", false, [], []⟩,
    ⟨"CreatedAt", .time, "created_at", false, [], []⟩,
    ⟨"UpdatedAt", .time, "updated_at", false, [], []⟩ ]

def GuestDetailResponse.schema : List Field :=
  [ ⟨"ID", .uint, "id", false, [], []⟩,
    ⟨"Name", .string, "name", false, [], []⟩,
    ⟨"Email", .string, "email", false, [], []⟩,
    ⟨"Phone", .string, "phone", false, [], []⟩,
    ⟨"Nationality", .string, "nationality", false, [], []⟩,
    ⟨"IDType", .string, "id_type", false, [], []⟩,
    ⟨"IDNumber", .string, "id_number", false, [], []⟩,
    ⟨"JoinDate", .time, "join_date", false, [], []⟩,
    ⟨"Reservations", .sliceOf "ReservationResponse", "reservations", false, [], []⟩,
    ⟨"Preferences", .named "GuestPreferencesResponse", "preferences", false, [], []⟩,
    ⟨"AIInsights", .named "GuestAIInsightsResponse", "ai_insights", false, [], []⟩,
    ⟨"Statistics", .named "GuestStatisticsResponse", "statistics", false, [], []⟩,
    ⟨"ServiceUsage", .sliceOf "ServiceUsageResponse", "service_usage", false, [], []⟩,
    ⟨"CreatedAt", .time, "created_at", false, [], []⟩,
    ⟨"UpdatedAt", .time, "updated_at", false, [], []⟩ ]

def GuestPreferencesResponse.schema : List Field :=
  [ ⟨"ID", .uint, "id", false, [], []⟩,
    ⟨"RoomFloors", .sliceOf "string", "room_floors", false, [], []⟩,
    ⟨"MealTypes", .sliceOf "string", "meal_types", false, [], []⟩,
    ⟨"RoomTypes", .sliceOf "string", "room_types", false, [], []⟩,
    ⟨"SpecialRequests", .sliceOf "string", "special_requests", false, [], []⟩ ]

def GuestAIInsightsResponse.schema : List Field :=
  [ ⟨"ID", .uint, "id", false, [], []⟩,
    ⟨"MealPreference", .string, "meal_preference", false, [], []⟩,
    ⟨"RoomPreference", .string, "room_preference", false, [], []⟩,
    ⟨"ServicePattern", .string, "service_pattern", false, [], []⟩,
    ⟨"RiskScore", .string, "risk_score", false, [], []⟩,
    ⟨"Recommendations", .sliceOf "string", "recommendations", false, [], []⟩,
    ⟨"Complaints", .sliceOf "string", "complaints", false, [], []⟩ ]

def GuestStatisticsResponse.schema : List Field :=
  [ ⟨"TotalStays", .int, "total_stays", false, [], []⟩,
    ⟨"TotalSpent", .float64, "total_spent", false, [], []⟩,
    ⟨"AverageSpend", .float64, "average_spend", false, [], []⟩,
    ⟨"LastVisit", .time, "last_visit", false, [], []⟩,
    ⟨"MostCommonRoom", .string, "most_common_room", false, [], []⟩ ]

def ServiceUsageResponse.schema : List Field :=
  [ ⟨"Type", .string, "type", false, [], []⟩,
    ⟨"Count", .int, "count", false, [], []⟩,
    ⟨"Label", .string, "label", false, [], []⟩ ]

def ReservationResponse.schema : List Field :=
  [ ⟨"ID", .uint, "id", false, [], []⟩,
    ⟨"BookingID", .string, "booking_id", false, [], []⟩,
    ⟨"GuestID", .uint, "guest_id", false, [], []⟩,
    ⟨"RoomID", .uint, "room_id", false, [], []⟩,
    ⟨"CheckInDate", .time, "check_in_date", false, [], []⟩,
    ⟨"CheckOutDate", .time, "check_out_date", false, [], []⟩,
    ⟨"Nights", .int, "nights", false, [], []⟩,
    ⟨"TotalPrice", .float64, "total_price", false, [], []⟩,
    ⟨"PaidAmount", .float64, "paid_amount", false, [], []⟩,
    ⟨"Status", .string, "status", false, [], []⟩,
    ⟨"CreatedAt", .time, "created_at", false, [], []⟩,
    ⟨"UpdatedAt", .time, "updated_at", false, [], []⟩ ]

def ReservationDetailResponse.schema : List Field :=
  [ ⟨"ID", .uint, "id", false, [], []⟩,
    ⟨"BookingID", .string, "booking_id", false, [], []⟩,
    ⟨"Guest", .named "GuestResponse", "guest", false, [], []⟩,
    ⟨"Room", .named "RoomResponse", "room", false, [], []⟩,
    ⟨"CheckInDate", .time, "check_in_date", false, [], []⟩,
    ⟨"CheckOutDate", .time, "check_out_date", false, [], []⟩,
    ⟨"CheckInTime", .string, "check_in_time", false, [], []⟩,
    ⟨"CheckOutTime", .string, "check_out_time", false, [], []⟩,
    ⟨"Nights", .int, "nights", false, [], []⟩,
    ⟨"TotalPrice", .float64, "total_price", false, [], []⟩,
    ⟨"PaidAmount", .float64, "paid_amount", false, [], []⟩,
    ⟨"Status", .string, "status", false, [], []⟩,
    ⟨"Preferences", .sliceOf "string", "preferences", false, [], []⟩,
    ⟨"ServiceRequests", .sliceOf "ServiceRequestResponse", "service_requests", false, [], []⟩,
    ⟨"CreatedAt", .time, "created_at", false, [], []⟩,
    ⟨"UpdatedAt", .time, "updated_at", false, [], []⟩ ]

def RoomResponse.schema : List Field :=
  [ ⟨"ID", .uint, "id", false, [], []⟩,
    ⟨"RoomNumber", .string, "room_number", false, [], []⟩,
    ⟨"RoomType", .string, "room_type", false, [], []⟩,
    ⟨"Floor", .int, "floor", false, [], []⟩,
    ⟨"Capacity", .int, "capacity", false, [], []⟩,
    ⟨"PricePerNight", .float64, "price_per_night", false, [], []⟩,
    ⟨"Status", .string, "status", false, [], []⟩,
    ⟨"CreatedAt", .time, "created_at", false, [], []⟩,
    ⟨"UpdatedAt", .time, "updated_at", false, [], []⟩ ]

def ServiceRequestResponse.schema : List Field :=
  [ ⟨"ID", .uint, "id", false, [], []⟩,
    ⟨"ReservationID", .uint, "reservation_id", false, [], []⟩,
    ⟨"GuestID", .uint, "guest_id", false, [], []⟩,
    ⟨"ServiceType", .string, "service_type", false, [], []⟩,
    ⟨"Status", .string, "status", false, [], []⟩,
    ⟨"Priority", .string, "priority", false, [], []⟩,
    ⟨"Description", .string, "description", false, [], []⟩,
    ⟨"Notes", .string, "notes", false, [], []⟩,
    ⟨"AssignedTo", .string, "assigned_to", false, [], []⟩,
    ⟨"RequestedAt", .time, "requested_at", false, [], []⟩,
    ⟨"CompletedAt", .timePtr, "completed_at", false, [], []⟩,
    ⟨"CreatedAt", .time, "created_at", false, [], []⟩,
    ⟨"UpdatedAt", .time, "updated_at", false, [], []⟩ ]

def ServiceRequestDetailResponse.schema : List Field :=
  [ ⟨"ID", .uint, "id", false, [], []⟩,
    ⟨"ReservationID", .uint, "reservation_id", false, [], []⟩,
    ⟨"Guest", .named "GuestResponse", "guest", false, [], []⟩,
    ⟨"Room", .named "RoomResponse", "room", false, [], []⟩,
    ⟨"ServiceType", .string, "service_type", false, [], []⟩,
    ⟨"Status", .string, "status", false, [], []⟩,
    ⟨"Priority", .string, "priority", false, [], []⟩,
    ⟨"Description", .string, "description", false, [], []⟩,
    ⟨"Notes", .string, "notes", false, [], []⟩,
    ⟨"AssignedTo", .string, "assigned_to", false, [], []⟩,
    ⟨"RequestedAt", .time, "requested_at", false, [], []⟩,
    ⟨"CompletedAt", .timePtr, "completed_at", false, [], []⟩,
    ⟨"CreatedAt", .time, "created_at", false, [], []⟩,
    ⟨"UpdatedAt", .time, "updated_at", false, [], []⟩ ]

def RoomServiceOrderItemResponse.schema : List Field :=
  [ ⟨"ID", .uint, "id", false, [], []⟩,
    ⟨"Name", .string, "name", false, [], []⟩,
    ⟨"Price", .float64, "price", false, [], []⟩,
    ⟨"Quantity", .int, "quantity", false, [], []⟩ ]

def RoomServiceOrderResponse.schema : List Field :=
  [ ⟨"ID", .uint, "id", false, [], []⟩,
    ⟨"OrderID", .string, "order_id", false, [], []⟩,
    ⟨"ReservationID", .uint, "reservation_id", false, [], []⟩,
    ⟨"GuestID", .uint, "guest_id", false, [], []⟩,
    ⟨"Items", .sliceOf "RoomServiceOrderItemResponse", "items", false, [], []⟩,
    ⟨"Subtotal", .float64, "subtotal", false, [], []⟩,
    ⟨"DeliveryFee", .float64, "delivery_fee", false, [], []⟩,
    ⟨"Total", .float64, "total", false, [], []⟩,
    ⟨"Status", .string, "status", false, [], []⟩,
    ⟨"SpecialNotes", .string, "special_notes", false, [], []⟩,
    ⟨"OrderedAt", .time, "ordered_at", false, [], []⟩,
    ⟨"DeliveredAt", .timePtr, "delivered_at", false, [], []⟩,
    ⟨"CreatedAt", .time, "created_at", false, [], []⟩,
    ⟨"UpdatedAt", .time, "updated_at", false, [], []⟩ ]

def HousekeepingRequestResponse.schema : List Field :=
  [ ⟨"ID", .uint, "id", false, [], []⟩,
    ⟨"ReservationID", .uint, "reservation_id", false, [], []⟩,
    ⟨"GuestID", .uint, "guest_id", false, [], []⟩,
    ⟨"RequestType", .string, "request_type", false, [], []⟩,
    ⟨"Description", .string, "description", false, [], []⟩,
    ⟨"ScheduleTime", .string, "schedule_time", false, [], []⟩,
    ⟨"Status", .string, "status", false, [], []⟩,
    ⟨"AssignedTo", .string, "assigned_to", false, [], []⟩,
    ⟨"RequestedAt", .time, "requested_at", false, [], []⟩,
    ⟨"CompletedAt", .timePtr, "completed_at", false, [], []⟩,
    ⟨"CreatedAt", .time, "created_at", false, [], []⟩,
    ⟨"UpdatedAt", .time, "updated_at", false, [], []⟩ ]

def MaintenanceIssueResponse.schema : List Field :=
  [ ⟨"ID", .uint, "id", false, [], []⟩,
    ⟨"ReservationID", .uint, "reservation_id", false, [], []⟩,
    ⟨"GuestID", .uint, "guest_id", false, [], []⟩,
    ⟨"IssueType", .string, "issue_type", false, [], []⟩,
    ⟨"Description", .string, "description", false, [], []⟩,
    ⟨"Status", .string, "status", false, [], []⟩,
    ⟨"Priority", .string, "priority", false, [], []⟩,
    ⟨"AssignedTo", .string, "assigned_to", false, [], []⟩,
    ⟨"ReportedAt", .time, "reported_at", false, [], []⟩,
    ⟨"ResolvedAt", .timePtr, "resolved_at", false, [], []⟩,
    ⟨"CreatedAt", .time, "created_at", false, [], []⟩,
    ⟨"UpdatedAt", .time, "updated_at", false, [], []⟩ ]

def MenuItemResponse.schema : List Field :=
  [ ⟨"ID", .uint, "id", false, [], []⟩,
    ⟨"Name", .string, "name", false, [], []⟩,
    ⟨"Description", .string, "description", false, [], []⟩,
    ⟨"Price", .float64, "price", false, [], []⟩,
    ⟨"Category", .string, "category", false, [], []⟩,
    ⟨"Available", .bool, "available", false, [], []⟩,
    ⟨"CreatedAt", .time, "created_at", false, [], []⟩,
    ⟨"UpdatedAt", .time, "updated_at", false, [], []⟩ ]

def CheckInResponse.schema : List Field :=
  [ ⟨"ID", .uint, "id", false, [], []⟩,
    ⟨"ReservationID", .uint, "reservation_id", false, [], []⟩,
    ⟨"GuestID", .uint, "guest_id", false, [], []⟩,
    ⟨"RoomID", .uint, "room_id", false, [], []⟩,
    ⟨"CheckInTime", .time, "check_in_time", false, [], []⟩,
    ⟨"IDVerified", .bool, "id_verified", false, [], []⟩,
    ⟨"KeyIssued", .bool, "key_issued", false, [], []⟩,
    ⟨"DocumentsSigned", .bool, "documents_signed", false, [], []⟩,
    ⟨"Notes", .string, "notes", false, [], []⟩,
    ⟨"CreatedAt", .time, "created_at", false, [], []⟩,
    ⟨"UpdatedAt", .time, "updated_at", false, [], []⟩ ]

def CheckOutResponse.schema : List Field :=
  [ ⟨"ID", .uint, "id", false, [], []⟩,
    ⟨"ReservationID", .uint, "reservation_id", false, [], []⟩,
    ⟨"GuestID", .uint, "guest_id", false, [], []⟩,
    ⟨"RoomID", .uint, "room_id", false, [], []⟩,
    ⟨"CheckOutTime", .time, "check_out_time", false, [], []⟩,
    ⟨"RoomCondition", .string, "room_condition", false, [], []⟩,
    ⟨"Charges", .float64, "charges", false, [], []⟩,
    ⟨"Notes", .string, "notes", false, [], []⟩,
    ⟨"CreatedAt", .time, "created_at", false, [], []⟩,
    ⟨"UpdatedAt", .time, "updated_at", false, [], []⟩ ]

def InRoomTabletReservationResponse.schema : List Field :=
  [ ⟨"RoomNumber", .string, "room_number", false, [], []⟩,
    ⟨"RoomType", .string, "room_type", false, [], []⟩,
    ⟨"GuestName", .string, "guest_name", false, [], []⟩,
    ⟨"CheckInDate", .time, "check_in_date", false, [], []⟩,
    ⟨"CheckOutDate", .time, "check_out_date", false, [], []⟩,
    ⟨"CheckInTime", .string, "check_in_time", false, [], []⟩,
    ⟨"CheckOutTime", .string, "check_out_time", false, [], []⟩,
    ⟨"Nights", .int, "nights", false, [], []⟩,
    ⟨"BookingID", .string, "booking_id", false, [], []⟩,
    ⟨"TotalPrice", .float64, "total_price", false, [], []⟩,
    ⟨"PaidAmount", .float64, "paid_amount", false, [], []⟩,
    ⟨"Preferences", .sliceOf "string", "preferences", false, [], []⟩ ]

def InRoomTabletMenuResponse.schema : List Field :=
  [ ⟨"ID", .uint, "id", false, [], []⟩,
    ⟨"Name", .string, "name", false, [], []⟩,
    ⟨"Description", .string, "description", false, [], []⟩,
    ⟨"Price", .float64, "price", false, [], []⟩,
    ⟨"Category", .string, "category", false, [], []⟩,
    ⟨"Available", .bool, "available", false, [], []⟩ ]

def DashboardStatsResponse.schema : List Field :=
  [ ⟨"TotalGuests", .int64, "total_guests", false, [], []⟩,
    ⟨"TotalRooms", .int64, "total_rooms", false, [], []⟩,
    ⟨"OccupiedRooms", .int64, "occupied_rooms", false, [], []⟩,
    ⟨"AvailableRooms", .int64, "available_rooms", false, [], []⟩,
    ⟨"MaintenanceRooms", .int64, "maintenance_rooms", false, [], []⟩,
    ⟨"PendingCheckIns", .int64, "pending_check_ins", false, [], []⟩,
    ⟨"PendingCheckOuts", .int64, "pending_check_outs", false, [], []⟩,
    ⟨"PendingServiceRequests", .int64, "pending_service_requests", false, [], []⟩,
    ⟨"TodayRevenue", .float64, "today_revenue", false, [], []⟩,
    ⟨"MonthRevenue", .float64, "month_revenue", false, [], []⟩,
    ⟨"OccupancyRate", .float64, "occupancy_rate", false, [], []⟩ ]

def RoomStatusSummaryResponse.schema : List Field :=
  [ ⟨"Available", .int64, "available", false, [], []⟩,
    ⟨"Occupied", .int64, "occupied", false, [], []⟩,
    ⟨"Maintenance", .int64, "maintenance", false, [], []⟩,
    ⟨"Cleaning", .int64, "cleaning", false, [], []⟩ ]

def ServiceRequestSummaryResponse.schema : List Field :=
  [ ⟨"Pending", .int64, "pending", false, [], []⟩,
    ⟨"InProgress", .int64, "in_progress", false, [], []⟩,
    ⟨"Completed", .int64, "completed", false, [], []⟩,
    ⟨"Cancelled", .int64, "cancelled", false, [], []⟩ ]

/-- The field of a struct with the given Go name, when it has one. -/
def fieldNamed (schema : List Field) (name : String) : Option Field :=
  schema.find? (fun f => decide (f.name = name))

/-- The Go names of the fields that carry a gorm `uniqueIndex`. -/
def uniqueColumns (schema : List Field) : List String :=
  (schema.filter (fun f => decide (GormTag.uniqueIndex ∈ f.gorm))).map (fun f => f.name)

/-! ## Go values -/

/-- Values of the scalar Go types.  A `time.Time` is held as its offset from the
zero time (`0` is the zero value); a `float64` as the rational it denotes (the
numbers a JSON payload can carry are finite). -/
inductive Scalar
  | uint (n : Nat)
  | int (i : Int)
  | float (q : Rat)
  | str (s : String)
  | bool (b : Bool)
  | time (t : Int)
  deriving DecidableEq, Repr

/-- Go values as reflection sees them: scalars, nil and non-nil interface values,
nil and non-nil slices, and struct values as the list of their fields, each with
its declaration. -/
inductive Value
  | sc (s : Scalar)
  | nil                                   -- a nil interface or pointer
  | iface (v : Value)                     -- a non-nil interface holding `v`
  | nilSlice
  | slice (xs : List Value)
  | struct (fs : List (Field × Value))

/-- Whether a scalar is the zero value of its type. -/
def Scalar.isZero : Scalar → Bool
  | .uint n => n == 0
  | .int i => i == 0
  | .float q => q == 0
  | .str s => s == ""
  | .bool b => !b
  | .time t => t == 0

/-! ## Request validation (the validator behind gin's `binding` tag) -/

/-- The validator's `hasValue`, which decides `required`: slices, pointers and
interfaces must be non-nil, every other kind must differ from its zero value. -/
def hasValue : Value → Bool
  | .sc s => !s.isZero
  | .nil => false
  | .iface _ => true
  | .nilSlice => false
  | .slice _ => true
  | .struct _ => true

/-- The validator's `min=n` (`isGte`): the number is at least `n`, or the string or
slice has at least `n` elements.  The kinds on which it needs the clock or has no
meaning (times, booleans, nil values, structs) are rejected; no request body
puts `min` on them. -/
def checkMin (n : Int) : Value → Bool
  | .sc (.int i) => decide (n ≤ i)
  | .sc (.uint k) => decide (n ≤ (k : Int))
  | .sc (.float q) => decide ((n : Rat) ≤ q)
  | .sc (.str s) => decide (n ≤ (s.length : Int))
  | .nilSlice => decide (n ≤ 0)
  | .slice xs => decide (n ≤ (xs.length : Int))
  | _ => false

/-- One constraint on one value.  `emailOk` stands for the validator's e-mail
pattern, which no string value of another kind matches.  `dive` itself checks
nothing: it is a direction to the traversal. -/
def checkTag (emailOk : String → Bool) : Tag → Value → Bool
  | .required, v => hasValue v
  | .email, .sc (.str s) => emailOk s
  | .email, _ => false
  | .min n, v => checkMin n v
  | .dive, _ => true

mutual
/-- The validator's `traverseField`: a struct value is validated field by field;
an interface is unwrapped; a nil pointer or interface fails as soon as the field
has any constraint; otherwise the constraints are checked in order, and the
elements of a slice are visited only from a `dive` onwards, with the constraints
that follow it (a nil slice has no element to visit; the validator refuses to
dive into a value that is no slice). -/
def traverseField (emailOk : String → Bool) : List Tag → Value → Bool
  | _, .struct fs => validateStruct emailOk fs
  | ts, .iface v => traverseField emailOk ts v
  | [], _ => true
  | _ :: _, .nil => false
  | .dive :: rest, .slice xs => traverseElems emailOk rest xs
  | .dive :: _, .nilSlice => true
  | .dive :: _, _ => false
  | t :: rest, v => checkTag emailOk t v && traverseField emailOk rest v
/-- The elements of a slice under `dive`, each against the remaining constraints. -/
def traverseElems (emailOk : String → Bool) : List Tag → List Value → Bool
  | _, [] => true
  | ts, x :: xs => traverseField emailOk ts x && traverseElems emailOk ts xs
/-- The validator's `validateStruct`: every field against its own `binding` tag;
the struct is valid when no field reports an error. -/
def validateStruct (emailOk : String → Bool) : List (Field × Value) → Bool
  | [] => true
  | (f, v) :: rest => traverseField emailOk f.binding v && validateStruct emailOk rest
end

/-- gin's `ShouldBindJSON` validation step on a decoded struct: the struct value
is what reflection shows, each declared field with its value. -/
def validate (emailOk : String → Bool) (schema : List Field) (values : List Value) : Bool :=
  validateStruct emailOk (schema.zip values)

/-! ### Request bodies as typed payloads

A decoded request body: Go `uint` and `int` fields hold naturals and integers
(the JSON decoder rejects numbers outside the machine range before validation
runs), and a slice field is `none` when the decoded slice is nil (key absent or
`null`). -/

structure CreateGuestRequest where
  Name : String
  Email : String
  Phone : String
  Nationality : String
  IDType : String
  IDNumber : String
  deriving DecidableEq, Repr

def CreateGuestRequest.values (r : CreateGuestRequest) : List Value :=
  [.sc (.str r.Name), .sc (.str r.Email), .sc (.str r.Phone), .sc (.str r.Nationality),
   .sc (.str r.IDType), .sc (.str r.IDNumber)]

def CreateGuestRequest.validate (emailOk : String → Bool) (r : CreateGuestRequest) : Bool :=
  Hotel.validate emailOk CreateGuestRequest.schema r.values

structure CreateReservationRequest where
  GuestID : Nat
  RoomID : Nat
  CheckInDate : Int
  CheckOutDate : Int
  TotalPrice : Rat
  deriving DecidableEq, Repr

def CreateReservationRequest.values (r : CreateReservationRequest) : List Value :=
  [.sc (.uint r.GuestID), .sc (.uint r.RoomID), .sc (.time r.CheckInDate),
   .sc (.time r.CheckOutDate), .sc (.float r.TotalPrice)]

def CreateReservationRequest.validate (emailOk : String → Bool)
    (r : CreateReservationRequest) : Bool :=
  Hotel.validate emailOk CreateReservationRequest.schema r.values

structure CreateServiceRequestRequest where
  ReservationID : Nat
  GuestID : Nat
  ServiceType : String
  Priority : String
  Description : String
  deriving DecidableEq, Repr

def CreateServiceRequestRequest.values (r : CreateServiceRequestRequest) : List Value :=
  [.sc (.uint r.ReservationID), .sc (.uint r.GuestID), .sc (.str r.ServiceType),
   .sc (.str r.Priority), .sc (.str r.Description)]

def CreateServiceRequestRequest.validate (emailOk : String → Bool)
    (r : CreateServiceRequestRequest) : Bool :=
  Hotel.validate emailOk CreateServiceRequestRequest.schema r.values

structure CreateRoomServiceOrderItemRequest where
  MenuItemID : Nat
  Quantity : Int
  deriving DecidableEq, Repr

def CreateRoomServiceOrderItemRequest.values (i : CreateRoomServiceOrderItemRequest) :
    List Value :=
  [.sc (.uint i.MenuItemID), .sc (.int i.Quantity)]

/-- An item as a struct value: its declared fields with their values. -/
def CreateRoomServiceOrderItemRequest.toValue (i : CreateRoomServiceOrderItemRequest) : Value :=
  .struct (CreateRoomServiceOrderItemRequest.schema.zip i.values)

/-- The item validated on its own, as a top-level struct. -/
def CreateRoomServiceOrderItemRequest.validate (emailOk : String → Bool)
    (i : CreateRoomServiceOrderItemRequest) : Bool :=
  Hotel.validate emailOk CreateRoomServiceOrderItemRequest.schema i.values

structure CreateRoomServiceOrderRequest where
  ReservationID : Nat
  GuestID : Nat
  Items : Option (List CreateRoomServiceOrderItemRequest)
  SpecialNotes : String
  deriving DecidableEq, Repr

def CreateRoomServiceOrderRequest.itemsValue (r : CreateRoomServiceOrderRequest) : Value :=
  match r.Items with
  | none => .nilSlice
  | some items => .slice (items.map (fun i => i.toValue))

def CreateRoomServiceOrderRequest.values (r : CreateRoomServiceOrderRequest) : List Value :=
  [.sc (.uint r.ReservationID), .sc (.uint r.GuestID), r.itemsValue, .sc (.str r.SpecialNotes)]

def CreateRoomServiceOrderRequest.validate (emailOk : String → Bool)
    (r : CreateRoomServiceOrderRequest) : Bool :=
  Hotel.validate emailOk CreateRoomServiceOrderRequest.schema r.values

structure CreateHousekeepingRequestRequest where
  ReservationID : Nat
  GuestID : Nat
  RequestType : String
  Description : String
  ScheduleTime : String
  deriving DecidableEq, Repr

def CreateHousekeepingRequestRequest.values (r : CreateHousekeepingRequestRequest) :
    List Value :=
  [.sc (.uint r.ReservationID), .sc (.uint r.GuestID), .sc (.str r.RequestType),
   .sc (.str r.Description), .sc (.str r.ScheduleTime)]

def CreateHousekeepingRequestRequest.validate (emailOk : String → Bool)
    (r : CreateHousekeepingRequestRequest) : Bool :=
  Hotel.validate emailOk CreateHousekeepingRequestRequest.schema r.values

structure CreateMaintenanceIssueRequest where
  ReservationID : Nat
  GuestID : Nat
  IssueType : String
  Description : String
  deriving DecidableEq, Repr

def CreateMaintenanceIssueRequest.values (r : CreateMaintenanceIssueRequest) : List Value :=
  [.sc (.uint r.ReservationID), .sc (.uint r.GuestID), .sc (.str r.IssueType),
   .sc (.str r.Description)]

def CreateMaintenanceIssueRequest.validate (emailOk : String → Bool)
    (r : CreateMaintenanceIssueRequest) : Bool :=
  Hotel.validate emailOk CreateMaintenanceIssueRequest.schema r.values

structure UpdateServiceRequestRequest where
  Status : String
  AssignedTo : String
  Notes : String
  deriving DecidableEq, Repr

def UpdateServiceRequestRequest.values (r : UpdateServiceRequestRequest) : List Value :=
  [.sc (.str r.Status), .sc (.str r.AssignedTo), .sc (.str r.Notes)]

def UpdateServiceRequestRequest.validate (emailOk : String → Bool)
    (r : UpdateServiceRequestRequest) : Bool :=
  Hotel.validate emailOk UpdateServiceRequestRequest.schema r.values

structure UpdateMaintenanceIssueRequest where
  Status : String
  AssignedTo : String
  Notes : String
  deriving DecidableEq, Repr

def UpdateMaintenanceIssueRequest.values (r : UpdateMaintenanceIssueRequest) : List Value :=
  [.sc (.str r.Status), .sc (.str r.AssignedTo), .sc (.str r.Notes)]

def UpdateMaintenanceIssueRequest.validate (emailOk : String → Bool)
    (r : UpdateMaintenanceIssueRequest) : Bool :=
  Hotel.validate emailOk UpdateMaintenanceIssueRequest.schema r.values

/-- The four create requests of the service-request family. -/
inductive FamilyRequest
  | serviceRequest (r : CreateServiceRequestRequest)
  | roomServiceOrder (r : CreateRoomServiceOrderRequest)
  | housekeepingRequest (r : CreateHousekeepingRequestRequest)
  | maintenanceIssue (r : CreateMaintenanceIssueRequest)

namespace FamilyRequest

def validate (emailOk : String → Bool) : FamilyRequest → Bool
  | serviceRequest r => r.validate emailOk
  | roomServiceOrder r => r.validate emailOk
  | housekeepingRequest r => r.validate emailOk
  | maintenanceIssue r => r.validate emailOk

/-- The payload's `reservation_id`. -/
def reservationID : FamilyRequest → Nat
  | serviceRequest r => r.ReservationID
  | roomServiceOrder r => r.ReservationID
  | housekeepingRequest r => r.ReservationID
  | maintenanceIssue r => r.ReservationID

/-- The payload's `guest_id`. -/
def guestID : FamilyRequest → Nat
  | serviceRequest r => r.GuestID
  | roomServiceOrder r => r.GuestID
  | housekeepingRequest r => r.GuestID
  | maintenanceIssue r => r.GuestID

/-- The declaration of the entity that the request creates. -/
def entity : FamilyRequest → List Field
  | serviceRequest _ => ServiceRequest.schema
  | roomServiceOrder _ => RoomServiceOrder.schema
  | housekeepingRequest _ => HousekeepingRequest.schema
  | maintenanceIssue _ => MaintenanceIssue.schema

end FamilyRequest

/-! ## JSON serialisation of the envelope (`encoding/json`) -/

/-- The `isEmptyValue` of `encoding/json`, which decides `omitempty`: false, zero
numbers, empty strings and slices, nil pointers and interfaces are empty; a
struct (a `time.Time` too) never is, nor is a non-nil interface, whatever it
holds. -/
def isEmptyValue : Value → Bool
  | .sc (.time _) => false
  | .sc s => s.isZero
  | .nil => true
  | .iface _ => false
  | .nilSlice => true
  | .slice xs => xs.isEmpty
  | .struct _ => false

/-- The members of the JSON object that `json.Marshal` writes for a struct value:
one member per declared field, in declaration order, under the field's JSON key,
leaving out the `omitempty` fields whose value is empty.  A member's value is
kept as the Go value that is serialised in turn (a nested struct value becomes a
nested object). -/
def jsonObject (fs : List (Field × Value)) : List (String × Value) :=
  (fs.filter (fun fv => !(fv.1.omitempty && isEmptyValue fv.2))).map
    (fun fv => (fv.1.json, fv.2))

/-- The keys of the JSON object written for a struct value. -/
def jsonKeys (fs : List (Field × Value)) : List String :=
  (jsonObject fs).map (fun kv => kv.1)

/-- An `interface{}` field: `none` is the nil interface, `some v` holds `v`. -/
def ifaceValue : Option Value → Value
  | none => .nil
  | some v => .iface v

structure APIResponse where
  Success : Bool
  Message : String
  Data : Option Value
  Error : String

/-- The struct value of an `APIResponse`, as reflection shows it. -/
def APIResponse.fields (r : APIResponse) : List (Field × Value) :=
  APIResponse.schema.zip
    [.sc (.bool r.Success), .sc (.str r.Message), ifaceValue r.Data, .sc (.str r.Error)]

structure PaginationMeta where
  Page : Int
  PageSize : Int
  Total : Int
  TotalPages : Int
  deriving DecidableEq, Repr

def PaginationMeta.fields (m : PaginationMeta) : List (Field × Value) :=
  PaginationMeta.schema.zip
    [.sc (.int m.Page), .sc (.int m.PageSize), .sc (.int m.Total), .sc (.int m.TotalPages)]

structure PaginatedResponse where
  Success : Bool
  Message : String
  Data : Option Value
  Meta : PaginationMeta

def PaginatedResponse.fields (r : PaginatedResponse) : List (Field × Value) :=
  PaginatedResponse.schema.zip
    [.sc (.bool r.Success), .sc (.str r.Message), ifaceValue r.Data, .struct r.Meta.fields]

/-- The keys of the nested JSON object found under `key`, when the member under
`key` is a struct value. -/
def nestedKeys (fs : List (Field × Value)) (key : String) : Option (List String) :=
  match (jsonObject fs).lookup key with
  | some (.struct inner) => some (jsonKeys inner)
  | _ => none

/-! ## Stored tables and the uniqueness constraints of the schema -/

/-- A stored row: the value of each column, by the Go name of its field. -/
abbrev Row := String → Scalar

/-- A table satisfies the declared uniqueness constraints when, for each column
that carries a `uniqueIndex`, no two of its rows hold the same value. -/
def satisfiesUnique (schema : List Field) (rows : List Row) : Prop :=
  ∀ c ∈ uniqueColumns schema, rows.Pairwise (fun a b => a c ≠ b c)

/-- The three tables with a uniqueness invariant in the data model. -/
structure Store where
  guests : List Row
  reservations : List Row
  rooms : List Row

/-- A store state that satisfies the constraints declared on `Guest`,
`Reservation` and `Room`. -/
def Store.consistent (s : Store) : Prop :=
  satisfiesUnique Guest.schema s.guests ∧
  satisfiesUnique Reservation.schema s.reservations ∧
  satisfiesUnique Room.schema s.rooms

/-- The error kinds of the persistence contract. -/
inductive ErrorKind
  | ValidationError | NotFoundError | ConflictError | InternalError
  deriving DecidableEq, Repr

/-- Whether a row to be inserted repeats, in a unique column, the value of a
stored row. -/
def violatesUnique (schema : List Field) (rows : List Row) (new : Row) : Bool :=
  (uniqueColumns schema).any (fun c => rows.any (fun r => decide (r c = new c)))

/-- Modelled from the spec: the persistence layer's `create` (the handlers and
the storage engine are not among the sources).  The spec gives it the contract
`create(payload) -> item | ValidationError/ConflictError`, where a payload that
fails the declared validation is a validation error and conflict errors arise
from uniqueness violations; a row that passes both is stored. -/
def create (schema : List Field) (rows : List Row) (valid : Bool) (new : Row) :
    Except ErrorKind (List Row) :=
  if !valid then .error .ValidationError
  else if violatesUnique schema rows new then .error .ConflictError
  else .ok (rows ++ [new])

/-- Modelled from the spec: the `Guest` row made from a create request (the
handler `CreateGuest` is not among the sources): the six request fields, with
the identifier and the timestamps that the persistence layer assigns. -/
def guestRow (req : CreateGuestRequest) (id : Nat) (now : Int) : Row := fun c =>
  if c = "ID" then .uint id
  else if c = "Name" then .str req.Name
  else if c = "Email" then .str req.Email
  else if c = "Phone" then .str req.Phone
  else if c = "Nationality" then .str req.Nationality
  else if c = "IDType" then .str req.IDType
  else if c = "IDNumber" then .str req.IDNumber
  else .time now

/-- Modelled from the spec: `POST /guests` on the guests table (the handler
`CreateGuest` is not among the sources): validate the payload, then `create`. -/
def createGuest (emailOk : String → Bool) (guests : List Row) (req : CreateGuestRequest)
    (id : Nat) (now : Int) : Except ErrorKind (List Row) :=
  create Guest.schema guests (req.validate emailOk) (guestRow req id now)

/-! ## Projections and request targets -/

/-- Whether a field of an entity is a relation: it is declared with a gorm
`foreignKey` (the fields under the `Relations` comment of each model). -/
def Field.isRelation (f : Field) : Bool :=
  f.gorm.any (fun g => match g with
    | .foreignKey _ => true
    | _ => false)

/-- What a projection shows of a field: its Go name, its type and its JSON key. -/
def Field.shape (f : Field) : String × GoType × String :=
  (f.name, f.type, f.json)

/-- Whether `response` is the flat projection of `entity`: its fields are the
non-relation fields of the entity, in order, each with the same name, type and
JSON key, and none of its fields has the name or the JSON key of a relation
field of the entity. -/
def isFlatProjection (entity response : List Field) : Bool :=
  decide (response.map Field.shape = (entity.filter (fun f => !f.isRelation)).map Field.shape) &&
  response.all (fun f => (entity.filter Field.isRelation).all
    (fun rel => decide (f.name ≠ rel.name) && decide (f.json ≠ rel.json)))

/-- The entities with a flat response projection, each with its projection. -/
def flatProjections : List (String × List Field × List Field) :=
  [ ("Guest", Guest.schema, GuestResponse.schema),
    ("Room", Room.schema, RoomResponse.schema),
    ("Reservation", Reservation.schema, ReservationResponse.schema),
    ("ServiceRequest", ServiceRequest.schema, ServiceRequestResponse.schema),
    ("HousekeepingRequest", HousekeepingRequest.schema, HousekeepingRequestResponse.schema),
    ("MaintenanceIssue", MaintenanceIssue.schema, MaintenanceIssueResponse.schema),
    ("MenuItem", MenuItem.schema, MenuItemResponse.schema),
    ("CheckIn", CheckIn.schema, CheckInResponse.schema),
    ("CheckOut", CheckOut.schema, CheckOutResponse.schema) ]

/-- The create and update request bodies, each with the entity it targets.
`CreateRoomServiceOrderItemRequest` is no body of its own: it is the element
type of the `items` field of `CreateRoomServiceOrderRequest`. -/
def requestTargets : List (String × List Field × List Field) :=
  [ ("CreateGuestRequest", CreateGuestRequest.schema, Guest.schema),
    ("CreateReservationRequest", CreateReservationRequest.schema, Reservation.schema),
    ("CreateServiceRequestRequest", CreateServiceRequestRequest.schema, ServiceRequest.schema),
    ("CreateRoomServiceOrderRequest", CreateRoomServiceOrderRequest.schema,
      RoomServiceOrder.schema),
    ("CreateHousekeepingRequestRequest", CreateHousekeepingRequestRequest.schema,
      HousekeepingRequest.schema),
    ("CreateMaintenanceIssueRequest", CreateMaintenanceIssueRequest.schema,
      MaintenanceIssue.schema),
    ("CreateCheckInRequest", CreateCheckInRequest.schema, CheckIn.schema),
    ("UpdateServiceRequestRequest", UpdateServiceRequestRequest.schema, ServiceRequest.schema),
    ("UpdateMaintenanceIssueRequest", UpdateMaintenanceIssueRequest.schema,
      MaintenanceIssue.schema) ]

/-- Whether a struct declares a field under the given JSON key. -/
def hasJsonKey (schema : List Field) (key : String) : Bool :=
  schema.any (fun f => decide (f.json = key))

/-- The request fields without a field of the same JSON key in the target
entity, as pairs of request name and JSON key. -/
def orphanFields (targets : List (String × List Field × List Field)) : List (String × String) :=
  targets.flatMap (fun t =>
    (t.2.1.filter (fun f => !hasJsonKey t.2.2 f.json)).map (fun f => (t.1, f.json)))

/-! ## Route patterns and request paths -/

/-- The pieces of a path between its slashes (a leading slash gives an empty
first piece, a trailing slash an empty last one). -/
def splitSlash : List Char → List (List Char)
  | [] => [[]]
  | c :: cs =>
    if c = '/' then [] :: splitSlash cs
    else match splitSlash cs with
      | [] => [[c]]
      | seg :: segs => (c :: seg) :: segs

/-- The path put together again from its pieces, a slash between each two. -/
def joinSlash : List (List Char) → List Char
  | [] => []
  | [seg] => seg
  | seg :: rest => seg ++ '/' :: joinSlash rest

/-- The segments of a path or of a route pattern. -/
def segments (path : String) : List String :=
  (splitSlash path.toList).map String.mk

/-- Whether a pattern segment is a parameter `:name`. -/
def isParam (seg : String) : Bool :=
  seg.toList.head? == some ':'

/-- Segment-wise matching of one segment: a parameter matches any non-empty
segment, any other pattern segment matches itself only. -/
def matchSegment (pat seg : String) : Bool :=
  if isParam pat then seg != "" else pat == seg

/-- Segment-wise matching of a pattern against the segments of a path. -/
def matchSegments : List String → List String → Bool
  | [], [] => true
  | p :: ps, s :: ss => matchSegment p s && matchSegments ps ss
  | _, _ => false

/-- Whether the route answers the request: same method, and its pattern matches
the path segment by segment. -/
def Route.accepts (r : Route) (m : Method) (path : String) : Bool :=
  decide (r.method = m) && matchSegments (segments r.path) (segments path)

/-- Whether two patterns can match a common path: they have the same number of
segments and, at each position, equal segments or a parameter on either side. -/
def overlap : List String → List String → Bool
  | [], [] => true
  | a :: as, b :: bs => (isParam a || isParam b || a == b) && overlap as bs
  | _, _ => false

/-- Whether two patterns meet in a wildcard-name conflict of gin's route tree:
after a common run of equal segments both have a parameter at the same position
under different names. -/
def wildcardConflict : List String → List String → Bool
  | a :: as, b :: bs =>
    if a = b then wildcardConflict as bs
    else isParam a && isParam b
  | _, _ => false

/-- The `addRoute` step of gin on the routes registered so far: it panics (here,
an error) when the method and path are registered already, or when the new
pattern meets a pattern of the same method tree in a wildcard-name conflict;
otherwise the route is added. -/
def addRoute (table : List Route) (r : Route) : Except String (List Route) :=
  if registered table r.method r.path then
    .error "handlers are already registered for path"
  else if table.any (fun e => decide (e.method = r.method) &&
      wildcardConflict (segments e.path) (segments r.path)) then
    .error "wildcard in new path conflicts with existing wildcard"
  else .ok (table ++ [r])

/-- The registration of a list of routes, in order, on top of `table`. -/
def registerAll (table : List Route) : List Route → Except String (List Route)
  | [] => .ok table
  | r :: rest =>
    match addRoute table r with
    | .ok next => registerAll next rest
    | .error e => .error e

def roomByID : Route := ⟨.GET, "/api/v1/rooms/:id", "GetRoomByID"⟩

def availableRooms : Route := ⟨.GET, "/api/v1/rooms/available", "GetAvailableRooms"⟩

/-! ## Listings, dashboard and order totals -/

/-- Modelled from the spec: the number of pages of a listing of `n` records,
`pageSize` to a page (the list handlers are not among the sources), by the
integer form of the rounded-up quotient. -/
def totalPages (n pageSize : Nat) : Nat :=
  (n + pageSize - 1) / pageSize

/-- Modelled from the spec: a paginated listing `list(filter, page) -> (items,
total)` (the list handlers are not among the sources): the page of records that
starts after the `page - 1` pages before it, with the pagination numbers of the
envelope. -/
def paginate {α : Type} (records : List α) (page pageSize : Nat) : List α × PaginationMeta :=
  ((records.drop ((page - 1) * pageSize)).take pageSize,
   ⟨page, pageSize, records.length, totalPages records.length pageSize⟩)

/-- The room counts and the occupancy rate of `DashboardStatsResponse`; the
`float64` rate is held as the rational it denotes. -/
structure RoomStats where
  TotalRooms : Nat
  OccupiedRooms : Nat
  AvailableRooms : Nat
  MaintenanceRooms : Nat
  OccupancyRate : Rat
  deriving DecidableEq, Repr

/-- Modelled from the spec: the occupancy rate of the dashboard (the handler
`GetDashboardStats` is not among the sources): occupied over total rooms, and 0
when there is no room. -/
def occupancyRate (occupied total : Nat) : Rat :=
  if total = 0 then 0 else (occupied : Rat) / (total : Rat)

/-- Modelled from the spec: the room part of the dashboard statistics (the
handler `GetDashboardStats` is not among the sources), as request-time counts
over the status of every room. -/
def dashboardRoomStats (statuses : List String) : RoomStats :=
  let total := statuses.length
  let occupied := statuses.count "occupied"
  ⟨total, occupied, statuses.count "available", statuses.count "maintenance",
   occupancyRate occupied total⟩

/-- A menu item as stored, with the fields an order needs; the `float64` price
is held as the rational it denotes. -/
structure MenuItem where
  ID : Nat
  Name : String
  Price : Rat
  deriving DecidableEq, Repr

/-- A line item of an order, with the fields of `RoomServiceOrderItemResponse`. -/
structure RoomServiceOrderItem where
  ID : Nat
  Name : String
  Price : Rat
  Quantity : Int
  deriving DecidableEq, Repr

/-- The part of a `RoomServiceOrder` that a create request determines. -/
structure RoomServiceOrder where
  ReservationID : Nat
  GuestID : Nat
  Items : List RoomServiceOrderItem
  Subtotal : Rat
  DeliveryFee : Rat
  Total : Rat
  SpecialNotes : String
  deriving DecidableEq, Repr

/-- The price of a line: item price times quantity. -/
def RoomServiceOrderItem.lineTotal (i : RoomServiceOrderItem) : Rat :=
  i.Price * (i.Quantity : Rat)

/-- Modelled from the spec: the line items of an order (the handler
`CreateRoomServiceOrder` is not among the sources): each requested item with the
name and price of its menu item; an unknown menu item is a not-found error. -/
def orderLines (menu : List MenuItem) :
    List CreateRoomServiceOrderItemRequest → Except ErrorKind (List RoomServiceOrderItem)
  | [] => .ok []
  | i :: rest =>
    match menu.find? (fun m => decide (m.ID = i.MenuItemID)) with
    | none => .error .NotFoundError
    | some m =>
      match orderLines menu rest with
      | .error e => .error e
      | .ok lines => .ok (⟨m.ID, m.Name, m.Price, i.Quantity⟩ :: lines)

/-- Modelled from the spec: the creation of a `RoomServiceOrder` from a create
request (the handler `CreateRoomServiceOrder` is not among the sources): the
payload is validated, the line items are priced from the menu, the subtotal is
the sum of price times quantity over the lines and the total is the subtotal
plus the delivery fee. -/
def createRoomServiceOrder (emailOk : String → Bool) (menu : List MenuItem) (deliveryFee : Rat)
    (req : CreateRoomServiceOrderRequest) : Except ErrorKind RoomServiceOrder :=
  if !req.validate emailOk then .error .ValidationError
  else
    match orderLines menu (req.Items.getD []) with
    | .error e => .error e
    | .ok lines =>
      let subtotal := (lines.map RoomServiceOrderItem.lineTotal).sum
      .ok ⟨req.ReservationID, req.GuestID, lines, subtotal, deliveryFee,
        subtotal + deliveryFee, req.SpecialNotes⟩

/-! ## Sample inputs -/

/-- A stand-in for the e-mail pattern on sample inputs: the string has an `@`. -/
def containsAt (s : String) : Bool := s.toList.contains '@'

def ada : CreateGuestRequest := ⟨"Ada", "ada@example.com", "555", "UK", "Passport", "X1"⟩

/-- A room-service order whose one item has quantity 0. -/
def zeroQuantityOrder : CreateRoomServiceOrderRequest := ⟨1, 1, some [⟨1, 0⟩], ""⟩

/-- A reservation request whose check-out date (10) is before its check-in date (20). -/
def backwardsStay : CreateReservationRequest := ⟨1, 1, 20, 10, 100⟩

/-- A reservation request whose check-out date equals its check-in date. -/
def sameDayStay : CreateReservationRequest := ⟨1, 1, 20, 20, 100⟩

/-- Page 2 of 25 records, ten a page, with no data attached. -/
def pageTwo : PaginatedResponse := ⟨true, "ok", none, ⟨2, 10, 25, 3⟩⟩

/-- The plain envelope with the same success flag, message and data as `pageTwo`. -/
def pageTwoEnvelope : APIResponse := ⟨true, "ok", none, ""⟩

def towels : FamilyRequest := .housekeepingRequest ⟨7, 3, "linens", "fresh towels", "morning"⟩

def guestByID : Route := ⟨.GET, "/api/v1/guests/:id", "GetGuestByID"⟩

def guestHistory : Route := ⟨.GET, "/api/v1/guests/:id/history", "GetGuestHistory"⟩

def sampleMenu : List MenuItem := [⟨1, "Club sandwich", 12⟩, ⟨2, "Tea", 3⟩]

/-- Two club sandwiches and one tea for reservation 7. -/
def sampleOrder : CreateRoomServiceOrderRequest := ⟨7, 3, some [⟨1, 2⟩, ⟨2, 1⟩], "no ice"⟩

/-! ## Theorems -/

/-- C1, as stated, fails: `check-ins` is one of the resource groups and its
`DELETE /:id` route is not registered (nor is that of `check-outs`), so not
every resource group has all five CRUD routes. -/
theorem C1_not_all_groups_have_crud :
    "check-ins" ∈ resourceGroups ∧
    hasCRUD SetupRoutes "check-ins" = false ∧
    registered SetupRoutes .DELETE "/api/v1/check-ins/:id" = false ∧
    registered SetupRoutes .DELETE "/api/v1/check-outs/:id" = false ∧
    ¬ (∀ g ∈ resourceGroups, hasCRUD SetupRoutes g = true) := by
  decide

/-- C1, amended: every resource group under `/api/v1` registers GET on the group
root, GET on `/:id`, POST on the group root and PUT on `/:id`; DELETE on `/:id`
is registered for every resource group except `check-ins` and `check-outs`, and
so all five CRUD routes are present exactly for the other nine groups. -/
theorem C1_crud_routes_per_group (g : String) (hg : g ∈ resourceGroups) :
    registered SetupRoutes .GET ("/api/v1/" ++ g) = true ∧
    registered SetupRoutes .GET ("/api/v1/" ++ g ++ "/:id") = true ∧
    registered SetupRoutes .POST ("/api/v1/" ++ g) = true ∧
    registered SetupRoutes .PUT ("/api/v1/" ++ g ++ "/:id") = true ∧
    (registered SetupRoutes .DELETE ("/api/v1/" ++ g ++ "/:id") = true ↔
      g ≠ "check-ins" ∧ g ≠ "check-outs") ∧
    (hasCRUD SetupRoutes g = true ↔ g ≠ "check-ins" ∧ g ≠ "check-outs") := by
  revert g
  decide

/-- C1 amended, at the `rooms` group (all five routes) and at the `check-outs`
group (four routes, no DELETE). -/
theorem C1_crud_routes_per_group_witness :
    ("rooms" ∈ resourceGroups ∧ hasCRUD SetupRoutes "rooms" = true) ∧
    ("check-outs" ∈ resourceGroups ∧
      registered SetupRoutes .PUT ("/api/v1/" ++ "check-outs" ++ "/:id") = true ∧
      ¬ registered SetupRoutes .DELETE ("/api/v1/" ++ "check-outs" ++ "/:id") = true) :=
  ⟨⟨by decide, (C1_crud_routes_per_group "rooms" (by decide)).2.2.2.2.2.mpr (by decide)⟩,
   by decide, (C1_crud_routes_per_group "check-outs" (by decide)).2.2.2.1,
   fun h => (((C1_crud_routes_per_group "check-outs" (by decide)).2.2.2.2.1.mp h).2 rfl)⟩

/-- C2 (the create is modelled from the spec): the schema declares a unique index
on `Guest.Email`, `Reservation.BookingID` and `Room.RoomNumber`; in a store state
that satisfies the declared constraints no two guests share an email, no two
reservations a booking ID and no two rooms a room number; and a create of a
guest whose email is that of a stored guest stores nothing, and is rejected with
a conflict error when the payload is otherwise valid. -/
theorem C2_unique_columns_and_conflict (emailOk : String → Bool) (s : Store)
    (hs : s.consistent) (req : CreateGuestRequest) (id : Nat) (now : Int)
    (g : Row) (hg : g ∈ s.guests) (he : g "Email" = .str req.Email) :
    (uniqueColumns Guest.schema = ["Email"] ∧
      uniqueColumns Reservation.schema = ["BookingID"] ∧
      uniqueColumns Room.schema = ["RoomNumber"]) ∧
    (s.guests.Pairwise (fun a b => a "Email" ≠ b "Email") ∧
      s.reservations.Pairwise (fun a b => a "BookingID" ≠ b "BookingID") ∧
      s.rooms.Pairwise (fun a b => a "RoomNumber" ≠ b "RoomNumber")) ∧
    (∀ rows, createGuest emailOk s.guests req id now ≠ .ok rows) ∧
    (req.validate emailOk = true →
      createGuest emailOk s.guests req id now = .error .ConflictError) := by
  obtain ⟨h1, h2, h3⟩ := hs
  have hv : violatesUnique Guest.schema s.guests (guestRow req id now) = true := by
    simp only [violatesUnique, List.any_eq_true, decide_eq_true_eq]
    exact ⟨"Email", by decide, g, hg, by simp [guestRow, he]⟩
  refine ⟨by decide, ⟨h1 "Email" (by decide), h2 "BookingID" (by decide),
    h3 "RoomNumber" (by decide)⟩, ?_, ?_⟩
  · intro rows
    simp only [createGuest, create, hv]
    cases req.validate emailOk <;> simp
  · intro hval
    simp [createGuest, create, hv, hval]

/-- C2 at a store holding one guest, on a second create with the same payload:
nothing is stored and the result is the conflict error. -/
theorem C2_unique_columns_and_conflict_witness :
    (∀ rows, createGuest containsAt [guestRow ada 1 5] ada 2 9 ≠ .ok rows) ∧
    createGuest containsAt [guestRow ada 1 5] ada 2 9 = .error .ConflictError :=
  have h := C2_unique_columns_and_conflict containsAt ⟨[guestRow ada 1 5], [], []⟩
    ⟨fun _ _ => List.pairwise_singleton _ _, fun _ _ => List.Pairwise.nil,
      fun _ _ => List.Pairwise.nil⟩
    ada 2 9 (guestRow ada 1 5) (List.mem_singleton.mpr rfl) (by decide)
  ⟨h.2.2.1, h.2.2.2 (by
    simp [CreateGuestRequest.validate, validate, CreateGuestRequest.schema, ada, containsAt,
      CreateGuestRequest.values, validateStruct, traverseField, checkTag, hasValue,
      Scalar.isZero])⟩

/-- C3: a `CreateGuestRequest` passes the declared validation if and only if name,
email, phone, nationality, id_type and id_number are all non-empty and the email
matches the e-mail pattern; every other payload fails. -/
theorem C3_create_guest_validation (emailOk : String → Bool) (r : CreateGuestRequest) :
    r.validate emailOk = true ↔
      r.Name ≠ "" ∧ r.Email ≠ "" ∧ r.Phone ≠ "" ∧ r.Nationality ≠ "" ∧ r.IDType ≠ "" ∧
      r.IDNumber ≠ "" ∧ emailOk r.Email = true := by
  simp [CreateGuestRequest.validate, validate, CreateGuestRequest.schema,
    CreateGuestRequest.values, validateStruct, traverseField, checkTag, hasValue,
    Scalar.isZero]
  tauto

/-- C4 fails on the code: the order whose one item has quantity 0 passes the
declared validation of `CreateRoomServiceOrderRequest`, although that item fails
the constraints of `CreateRoomServiceOrderItemRequest` when validated on its own.
The `binding` tag of `Items` is `required` without `dive`, so validation of an
order only asks for non-zero ids and a non-nil items slice, whatever the items
hold; with `dive` appended to that tag the same order is rejected. -/
theorem C4_item_quantity_not_checked :
    (∀ emailOk, zeroQuantityOrder.validate emailOk = true) ∧
    (∀ emailOk, (⟨1, 0⟩ : CreateRoomServiceOrderItemRequest).validate emailOk = false) ∧
    (∀ emailOk (r : CreateRoomServiceOrderRequest),
      r.validate emailOk = true ↔ r.ReservationID ≠ 0 ∧ r.GuestID ≠ 0 ∧ r.Items ≠ none) ∧
    (∀ emailOk,
      Hotel.validate emailOk
        (CreateRoomServiceOrderRequest.schema.map
          (fun f => if f.name = "Items" then ⟨f.name, f.type, f.json, f.omitempty, f.gorm,
            f.binding ++ [.dive]⟩ else f))
        zeroQuantityOrder.values = false) := by
  refine ⟨?_, ?_, ?_, ?_⟩
  · intro emailOk
    simp [zeroQuantityOrder, CreateRoomServiceOrderRequest.validate, validate,
      CreateRoomServiceOrderRequest.schema, CreateRoomServiceOrderRequest.values,
      CreateRoomServiceOrderRequest.itemsValue, validateStruct, traverseField, checkTag,
      hasValue, Scalar.isZero]
  · intro emailOk
    simp [CreateRoomServiceOrderItemRequest.validate, validate,
      CreateRoomServiceOrderItemRequest.schema, CreateRoomServiceOrderItemRequest.values,
      validateStruct, traverseField, checkTag, checkMin, hasValue, Scalar.isZero]
  · intro emailOk r
    rcases r with ⟨rid, gid, items, notes⟩
    cases items <;>
    simp [CreateRoomServiceOrderRequest.validate, validate,
      CreateRoomServiceOrderRequest.schema, CreateRoomServiceOrderRequest.values,
      CreateRoomServiceOrderRequest.itemsValue, validateStruct, traverseField, checkTag,
      hasValue, Scalar.isZero]
  · intro emailOk
    simp [zeroQuantityOrder, validate, CreateRoomServiceOrderRequest.schema,
      CreateRoomServiceOrderRequest.values, CreateRoomServiceOrderRequest.itemsValue,
      CreateRoomServiceOrderItemRequest.toValue, CreateRoomServiceOrderItemRequest.schema,
      CreateRoomServiceOrderItemRequest.values, validateStruct, traverseField,
      traverseElems, checkTag, checkMin, hasValue, Scalar.isZero]

/-- C5, as stated, fails: a request whose check-out date is before its check-in
date passes the declared validation, and so does one whose two dates are equal;
hence not every request that passes has its check-out strictly after its
check-in. -/
theorem C5_validation_does_not_order_dates :
    (∀ emailOk, backwardsStay.validate emailOk = true) ∧
    backwardsStay.CheckOutDate < backwardsStay.CheckInDate ∧
    (∀ emailOk, sameDayStay.validate emailOk = true) ∧
    sameDayStay.CheckOutDate = sameDayStay.CheckInDate ∧
    ¬ (∀ r : CreateReservationRequest,
        r.validate containsAt = true → r.CheckInDate < r.CheckOutDate) := by
  have hb : ∀ emailOk, backwardsStay.validate emailOk = true := by
    intro emailOk
    simp [backwardsStay, CreateReservationRequest.validate, validate,
      CreateReservationRequest.schema, CreateReservationRequest.values, validateStruct,
      traverseField, checkTag, hasValue, Scalar.isZero]
  refine ⟨hb, by decide, ?_, by decide, ?_⟩
  · intro emailOk
    simp [sameDayStay, CreateReservationRequest.validate, validate,
      CreateReservationRequest.schema, CreateReservationRequest.values, validateStruct,
      traverseField, checkTag, hasValue, Scalar.isZero]
  · intro h
    have h1 := h backwardsStay (hb containsAt)
    revert h1
    decide

/-- C5, amended: a `CreateReservationRequest` passes the declared validation
exactly when guest_id, room_id, check_in_date, check_out_date and total_price
are all non-zero; the validation does not compare the two dates, so exchanging
them does not change its verdict. -/
theorem C5_create_reservation_validation (emailOk : String → Bool)
    (r : CreateReservationRequest) :
    (r.validate emailOk = true ↔
      r.GuestID ≠ 0 ∧ r.RoomID ≠ 0 ∧ r.CheckInDate ≠ 0 ∧ r.CheckOutDate ≠ 0 ∧
      r.TotalPrice ≠ 0) ∧
    (CreateReservationRequest.mk r.GuestID r.RoomID r.CheckOutDate r.CheckInDate
        r.TotalPrice).validate emailOk = r.validate emailOk := by
  have key : ∀ q : CreateReservationRequest, q.validate emailOk = true ↔
      q.GuestID ≠ 0 ∧ q.RoomID ≠ 0 ∧ q.CheckInDate ≠ 0 ∧ q.CheckOutDate ≠ 0 ∧
      q.TotalPrice ≠ 0 := by
    intro q
    simp [CreateReservationRequest.validate, validate, CreateReservationRequest.schema,
      CreateReservationRequest.values, validateStruct, traverseField, checkTag, hasValue,
      Scalar.isZero]
  refine ⟨key r, ?_⟩
  rw [Bool.eq_iff_iff, key, key]
  tauto

/-- C6: for each of the four create requests of the service-request family, a
payload that passes the declared validation has a non-zero reservation_id and a
non-zero guest_id, and the entity it creates declares a `ReservationID` and a
`GuestID` field, both `uint`, under the JSON keys `reservation_id` and
`guest_id`. -/
theorem C6_family_references (emailOk : String → Bool) (q : FamilyRequest)
    (h : q.validate emailOk = true) :
    q.reservationID ≠ 0 ∧ q.guestID ≠ 0 ∧
    fieldNamed q.entity "ReservationID" =
      some ⟨"ReservationID", .uint, "reservation_id", false, [], []⟩ ∧
    fieldNamed q.entity "GuestID" = some ⟨"GuestID", .uint, "guest_id", false, [], []⟩ := by
  cases q with
  | serviceRequest r =>
    simp [FamilyRequest.validate, CreateServiceRequestRequest.validate, validate,
      CreateServiceRequestRequest.schema, CreateServiceRequestRequest.values, validateStruct,
      traverseField, checkTag, hasValue, Scalar.isZero] at h
    refine ⟨h.1, h.2.1, ?_, ?_⟩ <;> (simp only [FamilyRequest.entity]; decide)
  | roomServiceOrder r =>
    rcases r with ⟨rid, gid, items, notes⟩
    simp [FamilyRequest.validate, CreateRoomServiceOrderRequest.validate, validate,
      CreateRoomServiceOrderRequest.schema, CreateRoomServiceOrderRequest.values,
      validateStruct, traverseField, checkTag, hasValue, Scalar.isZero] at h
    refine ⟨h.1, h.2.1, ?_, ?_⟩ <;> (simp only [FamilyRequest.entity]; decide)
  | housekeepingRequest r =>
    simp [FamilyRequest.validate, CreateHousekeepingRequestRequest.validate, validate,
      CreateHousekeepingRequestRequest.schema, CreateHousekeepingRequestRequest.values,
      validateStruct, traverseField, checkTag, hasValue, Scalar.isZero] at h
    refine ⟨h.1, h.2.1, ?_, ?_⟩ <;> (simp only [FamilyRequest.entity]; decide)
  | maintenanceIssue r =>
    simp [FamilyRequest.validate, CreateMaintenanceIssueRequest.validate, validate,
      CreateMaintenanceIssueRequest.schema, CreateMaintenanceIssueRequest.values,
      validateStruct, traverseField, checkTag, hasValue, Scalar.isZero] at h
    refine ⟨h.1, h.2.1, ?_, ?_⟩ <;> (simp only [FamilyRequest.entity]; decide)

/-- C6 at a housekeeping request for reservation 7 and guest 3, which passes the
declared validation. -/
theorem C6_family_references_witness :
    towels.validate containsAt = true ∧ towels.reservationID ≠ 0 ∧ towels.guestID ≠ 0 :=
  have hv : towels.validate containsAt = true := by
    simp [towels, FamilyRequest.validate, CreateHousekeepingRequestRequest.validate, validate,
      CreateHousekeepingRequestRequest.schema, CreateHousekeepingRequestRequest.values,
      validateStruct, traverseField, checkTag, hasValue, Scalar.isZero]
  have h := C6_family_references containsAt towels hv
  ⟨hv, h.1, h.2.1⟩

/-- C7, as stated, fails for the paginated variant: the object serialised for
`pageTwo` has none of the keys page, page_size, total, total_pages and has a
`meta` key instead; it has a `data` key although its data is nil; so its keys
are not those of the plain envelope with the four pagination keys added. -/
theorem C7_paginated_keys_are_nested :
    "page" ∉ jsonKeys pageTwo.fields ∧ "page_size" ∉ jsonKeys pageTwo.fields ∧
    "total" ∉ jsonKeys pageTwo.fields ∧ "total_pages" ∉ jsonKeys pageTwo.fields ∧
    "meta" ∈ jsonKeys pageTwo.fields ∧
    "data" ∈ jsonKeys pageTwo.fields ∧ "data" ∉ jsonKeys pageTwoEnvelope.fields ∧
    jsonKeys pageTwo.fields ≠
      jsonKeys pageTwoEnvelope.fields ++ ["page", "page_size", "total", "total_pages"] := by
  simp [jsonKeys, jsonObject, pageTwo, pageTwoEnvelope, PaginatedResponse.fields,
    PaginatedResponse.schema, APIResponse.fields, APIResponse.schema, ifaceValue,
    isEmptyValue, Scalar.isZero]

/-- C7, amended: the keys of a serialised `APIResponse` are success and message,
with data exactly when `Data` is non-nil and error exactly when `Error` is
non-empty; a serialised `PaginatedResponse` has exactly the keys success,
message, data and meta (data also when it is nil, and never error), and the
object under meta has exactly the keys page, page_size, total and total_pages;
in both the member under success is the boolean flag. -/
theorem C7_envelope_keys (r : APIResponse) (p : PaginatedResponse) :
    jsonKeys r.fields =
      ["success", "message"] ++ (if r.Data.isSome then ["data"] else []) ++
        (if r.Error ≠ "" then ["error"] else []) ∧
    (jsonObject r.fields).lookup "success" = some (.sc (.bool r.Success)) ∧
    jsonKeys p.fields = ["success", "message", "data", "meta"] ∧
    nestedKeys p.fields "meta" = some ["page", "page_size", "total", "total_pages"] ∧
    (jsonObject p.fields).lookup "success" = some (.sc (.bool p.Success)) := by
  rcases r with ⟨s, m, d, e⟩
  rcases p with ⟨ps, pm, pd, pmeta⟩
  refine ⟨?_, ?_, ?_, ?_, ?_⟩
  · cases d <;> by_cases he : e = "" <;>
      simp [jsonKeys, jsonObject, APIResponse.fields, APIResponse.schema, ifaceValue,
        isEmptyValue, Scalar.isZero, he]
  · simp [jsonObject, APIResponse.fields, APIResponse.schema, isEmptyValue, List.lookup]
  · simp [jsonKeys, jsonObject, PaginatedResponse.fields, PaginatedResponse.schema]
  · simp [jsonKeys, jsonObject, PaginatedResponse.fields, PaginatedResponse.schema,
      List.lookup, nestedKeys, PaginationMeta.fields, PaginationMeta.schema]
  · simp [jsonObject, PaginatedResponse.fields, PaginatedResponse.schema, List.lookup]

/-- C8: the declared validation of `UpdateServiceRequestRequest` and of
`UpdateMaintenanceIssueRequest` accepts every payload, whatever string the
status is (the empty string and strings outside the documented enumeration
too), and the `Status` field of both entities is a plain `string` with no
constraint attached. -/
theorem C8_update_validation_accepts_all (emailOk : String → Bool)
    (status assignedTo notes : String) :
    (UpdateServiceRequestRequest.mk status assignedTo notes).validate emailOk = true ∧
    (UpdateMaintenanceIssueRequest.mk status assignedTo notes).validate emailOk = true ∧
    fieldNamed ServiceRequest.schema "Status" =
      some ⟨"Status", .string, "status", false, [], []⟩ ∧
    fieldNamed MaintenanceIssue.schema "Status" =
      some ⟨"Status", .string, "status", false, [], []⟩ := by
  refine ⟨?_, ?_, by decide, by decide⟩
  · simp [UpdateServiceRequestRequest.validate, validate, UpdateServiceRequestRequest.schema,
      UpdateServiceRequestRequest.values, validateStruct, traverseField]
  · simp [UpdateMaintenanceIssueRequest.validate, validate,
      UpdateMaintenanceIssueRequest.schema, UpdateMaintenanceIssueRequest.values,
      validateStruct, traverseField]

/-- C9: every route registered by `SetupRoutes` has a path starting with
`/api/v1/`, except exactly one route, `GET /health`, which sits at the root:
the routes outside the versioned prefix are the single health route, and it
occurs once in the table. -/
theorem C9_versioned_prefix_except_health :
    (∀ r ∈ SetupRoutes, startsWith r.path "/api/v1/" = true ∨ r = healthRoute) ∧
    SetupRoutes.filter (fun r => !startsWith r.path "/api/v1/") = [healthRoute] ∧
    healthRoute ∈ SetupRoutes ∧
    healthRoute.method = .GET ∧ healthRoute.path = "/health" ∧
    startsWith healthRoute.path "/api/v1/" = false ∧
    SetupRoutes.count healthRoute = 1 := by
  decide

/-- C10: the in-room-tablet group registers exactly five routes: GET of a
reservation by `reservationID`, GET of the menu, and POST of a room-service
order, a housekeeping request and a maintenance issue; each has method GET or
POST (none PUT or DELETE); and the entity group behind each of them has all
five CRUD routes elsewhere in the table. -/
theorem C10_in_room_tablet_reduced_surface :
    signatures (routesUnder SetupRoutes "/api/v1/in-room-tablet") =
      tabletEntityGroups.map (fun t => (t.1, t.2.1)) ∧
    (routesUnder SetupRoutes "/api/v1/in-room-tablet").length = 5 ∧
    (∀ r ∈ routesUnder SetupRoutes "/api/v1/in-room-tablet",
      (r.method = .GET ∨ r.method = .POST) ∧ r.method ≠ .PUT ∧ r.method ≠ .DELETE) ∧
    (∀ t ∈ tabletEntityGroups,
      t.2.2 ∈ resourceGroups ∧ hasCRUD SetupRoutes t.2.2 = true ∧
      (routesUnder SetupRoutes ("/api/v1/" ++ t.2.2)).all
        (fun r => !startsWith r.path "/api/v1/in-room-tablet") = true) := by
  decide

/-! ### Order totals, occupancy and pagination -/

/-- When every requested menu item is on the menu, the lines are priced, one per
requested item and with its quantity. -/
theorem orderLines_ok (menu : List MenuItem) :
    ∀ items : List CreateRoomServiceOrderItemRequest,
      (∀ i ∈ items, ∃ m ∈ menu, m.ID = i.MenuItemID) →
      ∃ lines, orderLines menu items = .ok lines ∧
        lines.map (fun l => l.Quantity) = items.map (fun i => i.Quantity)
  | [], _ => ⟨[], rfl, rfl⟩
  | i :: rest, h => by
    obtain ⟨m, hm, hid⟩ := h i (List.mem_cons_self _ _)
    obtain ⟨lines, hl, hq⟩ :=
      orderLines_ok menu rest (fun j hj => h j (List.mem_cons_of_mem _ hj))
    cases hf : menu.find? (fun m => decide (m.ID = i.MenuItemID)) with
    | none =>
      have := List.find?_eq_none.mp hf m hm
      simp [hid] at this
    | some m2 =>
      exact ⟨⟨m2.ID, m2.Name, m2.Price, i.Quantity⟩ :: lines, by simp [orderLines, hf, hl],
        by simp [hq]⟩

/-- C11 (the creation is modelled from the spec): a valid create request whose
menu items all exist creates an order, and for every order created from a create
request the total equals subtotal plus delivery fee and the subtotal equals the
sum over the order's items of item price times item quantity; the items carry
the requested quantities. -/
theorem C11_order_totals (emailOk : String → Bool) (menu : List MenuItem) (deliveryFee : Rat)
    (req : CreateRoomServiceOrderRequest) (hv : req.validate emailOk = true)
    (hm : ∀ i ∈ req.Items.getD [], ∃ m ∈ menu, m.ID = i.MenuItemID) :
    (∃ o, createRoomServiceOrder emailOk menu deliveryFee req = .ok o) ∧
    (∀ o, createRoomServiceOrder emailOk menu deliveryFee req = .ok o →
      o.Total = o.Subtotal + o.DeliveryFee ∧
      o.Subtotal = (o.Items.map (fun i => i.Price * (i.Quantity : Rat))).sum ∧
      o.DeliveryFee = deliveryFee ∧
      o.Items.map (fun l => l.Quantity) = (req.Items.getD []).map (fun i => i.Quantity)) := by
  obtain ⟨lines, hl, hq⟩ := orderLines_ok menu (req.Items.getD []) hm
  constructor
  · exact ⟨_, by simp only [createRoomServiceOrder, hv, hl]; rfl⟩
  · intro o ho
    simp only [createRoomServiceOrder, hv, hl, Bool.not_true, Bool.false_eq_true, if_false,
      Except.ok.injEq] at ho
    subst ho
    exact ⟨rfl, rfl, rfl, hq⟩

/-- C11 at an order of two club sandwiches at 12 and one tea at 3, with a
delivery fee of 5: subtotal 27, total 32. -/
theorem C11_order_totals_witness :
    createRoomServiceOrder containsAt sampleMenu 5 sampleOrder =
      .ok ⟨7, 3, [⟨1, "Club sandwich", 12, 2⟩, ⟨2, "Tea", 3, 1⟩], 27, 5, 32, "no ice"⟩ ∧
    (∃ o, createRoomServiceOrder containsAt sampleMenu 5 sampleOrder = .ok o) :=
  have hv : sampleOrder.validate containsAt = true := by
    simp [sampleOrder, CreateRoomServiceOrderRequest.validate, validate,
      CreateRoomServiceOrderRequest.schema, CreateRoomServiceOrderRequest.values,
      CreateRoomServiceOrderRequest.itemsValue, validateStruct, traverseField, checkTag,
      hasValue, Scalar.isZero]
  ⟨by
    simp only [createRoomServiceOrder, hv]
    simp [sampleOrder, sampleMenu, orderLines, RoomServiceOrderItem.lineTotal]
    norm_num,
   (C11_order_totals containsAt sampleMenu 5 sampleOrder hv (by decide)).1⟩

/-- C12 (the dashboard is modelled from the spec): for every distribution of room
statuses the total is the number of rooms, the occupied count is the number of
rooms with status occupied, the occupancy rate is occupied rooms divided by total
rooms (so rate times total is the occupied count when there is a room), and the
rate is 0 when there is no room; it lies between 0 and 1. -/
theorem C12_occupancy_rate (statuses : List String) :
    (dashboardRoomStats statuses).TotalRooms = statuses.length ∧
    (dashboardRoomStats statuses).OccupiedRooms = statuses.count "occupied" ∧
    (dashboardRoomStats statuses).OccupancyRate =
      ((dashboardRoomStats statuses).OccupiedRooms : ℚ) /
        ((dashboardRoomStats statuses).TotalRooms : ℚ) ∧
    ((dashboardRoomStats statuses).TotalRooms ≠ 0 →
      (dashboardRoomStats statuses).OccupancyRate *
          ((dashboardRoomStats statuses).TotalRooms : ℚ) =
        ((dashboardRoomStats statuses).OccupiedRooms : ℚ)) ∧
    ((dashboardRoomStats statuses).TotalRooms = 0 →
      (dashboardRoomStats statuses).OccupancyRate = 0) ∧
    0 ≤ (dashboardRoomStats statuses).OccupancyRate ∧
    (dashboardRoomStats statuses).OccupancyRate ≤ 1 := by
  simp only [dashboardRoomStats, occupancyRate]
  by_cases h : statuses.length = 0
  · simp [h]
  · have hpos : (0 : ℚ) < statuses.length := by
      have : 0 < statuses.length := Nat.pos_of_ne_zero h
      exact_mod_cast this
    have hle : (statuses.count "occupied" : ℚ) ≤ statuses.length := by
      exact_mod_cast List.count_le_length _ _
    simp only [h, if_false, ne_eq, not_false_eq_true, true_and, false_imp_iff, and_true,
      forall_const]
    refine ⟨div_mul_cancel₀ _ (ne_of_gt hpos), div_nonneg (by positivity) (le_of_lt hpos), ?_⟩
    rw [div_le_one hpos]
    exact hle

/-- The page count times the page size covers the records, by less than a page. -/
theorem totalPages_bounds (n pageSize : Nat) (hs : 1 ≤ pageSize) :
    n ≤ totalPages n pageSize * pageSize ∧ totalPages n pageSize * pageSize < n + pageSize := by
  have h1 := Nat.div_add_mod (n + pageSize - 1) pageSize
  have h2 := Nat.mod_lt (n + pageSize - 1) (show 0 < pageSize by omega)
  unfold totalPages
  rw [Nat.mul_comm ((n + pageSize - 1) / pageSize) pageSize]
  generalize pageSize * ((n + pageSize - 1) / pageSize) = pq at h1 ⊢
  omega

/-- The page count is the quotient of records by page size, rounded up. -/
theorem totalPages_eq_ceil (n pageSize : Nat) (hs : 1 ≤ pageSize) :
    ((totalPages n pageSize : Nat) : Int) = ⌈(n : ℚ) / (pageSize : ℚ)⌉ := by
  symm
  rw [Int.ceil_eq_iff]
  have hpos : (0 : ℚ) < pageSize := by exact_mod_cast hs
  obtain ⟨h1, h2⟩ := totalPages_bounds n pageSize hs
  have q1 : (n : ℚ) ≤ (totalPages n pageSize : ℚ) * pageSize := by exact_mod_cast h1
  have q2 : (totalPages n pageSize : ℚ) * pageSize < n + pageSize := by exact_mod_cast h2
  constructor
  · rw [lt_div_iff₀ hpos]
    push_cast
    linarith
  · rw [div_le_iff₀ hpos]
    push_cast
    linarith

/-- The items of a page, by position in the listing. -/
theorem paginate_items {α : Type} (records : List α) (page pageSize : Nat) (hp : 1 ≤ page) :
    (paginate records page pageSize).1 =
      (records.take (min (page * pageSize) records.length)).drop ((page - 1) * pageSize) ∧
    (paginate records page pageSize).1.length =
      min (page * pageSize) records.length - (page - 1) * pageSize := by
  have h : page * pageSize = pageSize + (page - 1) * pageSize := by
    obtain ⟨p, rfl⟩ : ∃ p, page = p + 1 := ⟨page - 1, by omega⟩
    simp [Nat.succ_mul, Nat.add_comm]
  constructor
  · simp only [paginate]
    apply List.ext_getElem?
    intro i
    simp only [List.getElem?_take, List.getElem?_drop]
    by_cases hi : i < pageSize
    · by_cases hn : (page - 1) * pageSize + i < records.length
      · have : (page - 1) * pageSize + i < min (page * pageSize) records.length := by omega
        simp [hi, this]
      · have h1 : ¬ ((page - 1) * pageSize + i < min (page * pageSize) records.length) := by
          omega
        have h2 : records.length ≤ (page - 1) * pageSize + i := by omega
        simp [hi, h1, List.getElem?_eq_none h2]
    · have h1 : ¬ ((page - 1) * pageSize + i < min (page * pageSize) records.length) := by
        omega
      simp [hi, h1]
  · simp only [paginate, List.length_take, List.length_drop]
    omega

/-- C13 (the listing is modelled from the spec): for a list of n records and every
page and page size from 1 on, the paginated listing returns the records at
positions (page-1)*page_size up to min(page*page_size, n), and reports total = n
and total_pages = ceil(n / page_size); page 2 with page size 10 over 25 records
has exactly 10 items and 3 pages. -/
theorem C13_paginated_listing {α : Type} (records : List α) (page pageSize : Nat)
    (hp : 1 ≤ page) (hs : 1 ≤ pageSize) :
    (paginate records page pageSize).1 =
      (records.take (min (page * pageSize) records.length)).drop ((page - 1) * pageSize) ∧
    (∀ i, (page - 1) * pageSize + i < min (page * pageSize) records.length →
      (paginate records page pageSize).1[i]? = records[(page - 1) * pageSize + i]?) ∧
    (paginate records page pageSize).1.length =
      min (page * pageSize) records.length - (page - 1) * pageSize ∧
    (paginate records page pageSize).2.Page = page ∧
    (paginate records page pageSize).2.PageSize = pageSize ∧
    (paginate records page pageSize).2.Total = records.length ∧
    (paginate records page pageSize).2.TotalPages = ⌈(records.length : ℚ) / (pageSize : ℚ)⌉ ∧
    (records.length = 25 → page = 2 → pageSize = 10 →
      (paginate records page pageSize).1.length = 10 ∧
      (paginate records page pageSize).2.TotalPages = 3) := by
  obtain ⟨h1, h2⟩ := paginate_items records page pageSize hp
  refine ⟨h1, ?_, h2, rfl, rfl, rfl, totalPages_eq_ceil _ _ hs, ?_⟩
  · intro i hi
    rw [h1, List.getElem?_drop, List.getElem?_take]
    simp [hi]
  · intro hn hpg hps
    subst hpg hps
    rw [h2, hn]
    simp [paginate, totalPages, hn]

/-- C13 at the records 0..24, page 2, page size 10: the items are 10..19, of 3
pages and 25 records. -/
theorem C13_paginated_listing_witness :
    (paginate (List.range 25) 2 10).1 = [10, 11, 12, 13, 14, 15, 16, 17, 18, 19] ∧
    (paginate (List.range 25) 2 10).2.TotalPages = 3 ∧
    (paginate (List.range 25) 2 10).2.Total = 25 :=
  have h := C13_paginated_listing (List.range 25) 2 10 (by decide) (by decide)
  ⟨by decide, (h.2.2.2.2.2.2.2 (by decide) rfl rfl).2, by decide⟩

/-! ### Projections and request targets -/

/-- C14: for each of Guest, Room, Reservation, ServiceRequest,
HousekeepingRequest, MaintenanceIssue, MenuItem, CheckIn and CheckOut, the flat
response projection has exactly the entity's non-relation fields, each with the
same name, type and JSON key, and none of the entity's relation fields.  (The
projection of RoomServiceOrder, which the list leaves out, is not flat: its
items have another type.) -/
theorem C14_flat_projections :
    flatProjections.map (fun t => t.1) =
      ["Guest", "Room", "Reservation", "ServiceRequest", "HousekeepingRequest",
       "MaintenanceIssue", "MenuItem", "CheckIn", "CheckOut"] ∧
    flatProjections.all (fun t => isFlatProjection t.2.1 t.2.2) = true ∧
    GuestResponse.schema.map Field.shape =
      (Guest.schema.filter (fun f => !f.isRelation)).map Field.shape ∧
    (Guest.schema.filter Field.isRelation).map (fun f => f.name) =
      ["Reservations", "ServiceRequests", "Preferences", "AIInsights"] ∧
    isFlatProjection RoomServiceOrder.schema RoomServiceOrderResponse.schema = false := by
  decide

/-- C17: every field of every create and update request body has a field with the
same JSON key in the entity that the request targets, with exactly one
exception: `notes` of `UpdateMaintenanceIssueRequest`, for which
`MaintenanceIssue` has no field (neither under the key `notes` nor under the
name `Notes`), whereas status, assigned_to and notes of
`UpdateServiceRequestRequest` all exist on `ServiceRequest`. -/
theorem C17_request_fields_have_targets :
    orphanFields requestTargets = [("UpdateMaintenanceIssueRequest", "notes")] ∧
    requestTargets.map (fun t => t.1) =
      ["CreateGuestRequest", "CreateReservationRequest", "CreateServiceRequestRequest",
       "CreateRoomServiceOrderRequest", "CreateHousekeepingRequestRequest",
       "CreateMaintenanceIssueRequest", "CreateCheckInRequest",
       "UpdateServiceRequestRequest", "UpdateMaintenanceIssueRequest"] ∧
    UpdateMaintenanceIssueRequest.schema.map (fun f => f.json) =
      ["status", "assigned_to", "notes"] ∧
    hasJsonKey MaintenanceIssue.schema "status" = true ∧
    hasJsonKey MaintenanceIssue.schema "assigned_to" = true ∧
    hasJsonKey MaintenanceIssue.schema "notes" = false ∧
    fieldNamed MaintenanceIssue.schema "Notes" = none ∧
    UpdateServiceRequestRequest.schema.all (fun f => hasJsonKey ServiceRequest.schema f.json)
      = true := by
  decide

/-! ### Route patterns -/

/-- Two patterns that match the same path overlap. -/
theorem overlap_of_matchSegments : ∀ (a b s : List String),
    matchSegments a s = true → matchSegments b s = true → overlap a b = true
  | [], [], [], _, _ => by simp [overlap]
  | [], _ :: _, [], _, h => by simp [matchSegments] at h
  | [], _, _ :: _, h, _ => by simp [matchSegments] at h
  | _ :: _, _, [], h, _ => by simp [matchSegments] at h
  | _ :: _, [], _ :: _, _, h => by simp [matchSegments] at h
  | p :: ps, q :: qs, x :: xs, h1, h2 => by
    simp only [matchSegments, Bool.and_eq_true] at h1 h2
    simp only [overlap, Bool.and_eq_true, Bool.or_eq_true]
    refine ⟨?_, overlap_of_matchSegments ps qs xs h1.2 h2.2⟩
    by_cases hp : isParam p = true
    · exact Or.inl (Or.inl hp)
    · by_cases hq : isParam q = true
      · exact Or.inl (Or.inr hq)
      · right
        have e1 := h1.1
        have e2 := h2.1
        simp only [matchSegment, hp, hq, Bool.false_eq_true, if_false, beq_iff_eq] at e1 e2
        simp [e1, e2]

/-- A pattern without parameters matches its own segments only. -/
theorem matchSegments_static : ∀ (a s : List String),
    (∀ p ∈ a, isParam p = false) → matchSegments a s = true → s = a
  | [], [], _, _ => rfl
  | [], _ :: _, _, h => by simp [matchSegments] at h
  | _ :: _, [], _, h => by simp [matchSegments] at h
  | p :: ps, x :: xs, hs, h => by
    simp only [matchSegments, Bool.and_eq_true] at h
    have hp : isParam p = false := hs p (List.mem_cons_self _ _)
    have e := h.1
    simp only [matchSegment, hp, Bool.false_eq_true, if_false, beq_iff_eq] at e
    rw [e, matchSegments_static ps xs (fun q hq => hs q (List.mem_cons_of_mem _ hq)) h.2]

/-- A path always has a first piece. -/
theorem splitSlash_ne_nil (cs : List Char) : splitSlash cs ≠ [] := by
  cases cs with
  | nil => simp [splitSlash]
  | cons c cs =>
    simp only [splitSlash]
    split
    · simp
    · split <;> simp

/-- Joining the pieces of a path gives the path back. -/
theorem joinSlash_splitSlash (cs : List Char) : joinSlash (splitSlash cs) = cs := by
  induction cs with
  | nil => simp [splitSlash, joinSlash]
  | cons c cs ih =>
    simp only [splitSlash]
    by_cases hc : c = '/'
    · simp only [hc, if_true]
      cases hs : splitSlash cs with
      | nil => exact absurd hs (splitSlash_ne_nil cs)
      | cons seg rest =>
        rw [hs] at ih
        simp [joinSlash, ih]
    · simp only [hc, if_false]
      cases hs : splitSlash cs with
      | nil => exact absurd hs (splitSlash_ne_nil cs)
      | cons seg rest =>
        rw [hs] at ih
        cases rest with
        | nil => simp [joinSlash] at ih ⊢; exact ih
        | cons r rs => simp [joinSlash] at ih ⊢; exact ih

/-- A path is determined by its segments. -/
theorem segments_injective (p q : String) (h : segments p = segments q) : p = q := by
  have hm : splitSlash p.toList = splitSlash q.toList := by
    have hinj : Function.Injective String.mk := fun a b hab => by injection hab
    exact (List.map_injective_iff.mpr hinj) h
  have : p.toList = q.toList := by
    rw [← joinSlash_splitSlash p.toList, ← joinSlash_splitSlash q.toList, hm]
  exact String.ext this

/-- Without a wildcard-name conflict, two patterns that agree before position `k`
and both have a parameter at `k` name it alike. -/
theorem wildcardConflict_names : ∀ (a b : List String) (k : Nat) (x y : String),
    wildcardConflict a b = false → a.take k = b.take k → a[k]? = some x → b[k]? = some y →
    isParam x = true → isParam y = true → x = y
  | [], _, _, _, _, _, _, hx, _, _, _ => by simp at hx
  | _ :: _, [], _, _, _, _, _, _, hy, _, _ => by simp at hy
  | p :: ps, q :: qs, 0, x, y, hc, _, hx, hy, hpx, hpy => by
    simp only [List.getElem?_cons_zero, Option.some.injEq] at hx hy
    subst hx hy
    by_contra hne
    simp [wildcardConflict, hne, hpx, hpy] at hc
  | p :: ps, q :: qs, k + 1, x, y, hc, ht, hx, hy, hpx, hpy => by
    simp only [List.take_succ_cons, List.cons.injEq] at ht
    simp only [List.getElem?_cons_succ] at hx hy
    simp only [wildcardConflict, ht.1, if_true] at hc
    exact wildcardConflict_names ps qs k x y hc ht.2 hx hy hpx hpy

set_option maxRecDepth 100000

/-- The only two routes of one method whose patterns overlap are `GET
/api/v1/rooms/:id` and `GET /api/v1/rooms/available`. -/
theorem overlapping_routes : SetupRoutes.Pairwise (fun r1 r2 => r1.method = r2.method →
    overlap (segments r1.path) (segments r2.path) = true →
      r1 = roomByID ∧ r2 = availableRooms) := by
  decide

/-- C15: under segment-wise matching, no two registered routes have the same
method and pattern; two distinct routes that both match a request are `GET
/api/v1/rooms/:id` and `GET /api/v1/rooms/available`, which both match `GET
/api/v1/rooms/available`; every other method and path matches at most one
registered route. -/
theorem C15_route_overlaps (m : Method) (path : String) :
    (signatures SetupRoutes).Nodup ∧
    SetupRoutes.Pairwise (fun r1 r2 => r1.accepts m path = true → r2.accepts m path = true →
      r1 = roomByID ∧ r2 = availableRooms) ∧
    (SetupRoutes.filter (fun r => r.accepts .GET "/api/v1/rooms/available")
      = [roomByID, availableRooms]) ∧
    ((m, path) ≠ (Method.GET, "/api/v1/rooms/available") →
      (SetupRoutes.filter (fun r => r.accepts m path)).length ≤ 1) := by
  have hpw : SetupRoutes.Pairwise (fun r1 r2 => r1.accepts m path = true →
      r2.accepts m path = true → r1 = roomByID ∧ r2 = availableRooms) := by
    refine overlapping_routes.imp ?_
    intro r1 r2 h a1 a2
    simp only [Route.accepts, Bool.and_eq_true, decide_eq_true_eq] at a1 a2
    exact h (a1.1.trans a2.1.symm) (overlap_of_matchSegments _ _ _ a1.2 a2.2)
  refine ⟨by decide, hpw, by decide, ?_⟩
  intro hne
  by_contra hlen
  have hf := hpw.filter (fun r => r.accepts m path)
  generalize hl : SetupRoutes.filter (fun r => r.accepts m path) = l at hf hlen
  have hall : ∀ r ∈ l, r.accepts m path = true := by
    intro r hr
    rw [← hl] at hr
    exact (List.mem_filter.mp hr).2
  match l, hf, hlen, hall with
  | [], _, hlen, _ => simp at hlen
  | [_], _, hlen, _ => simp at hlen
  | r1 :: r2 :: _, hf, _, hall =>
    have h12 := (List.pairwise_cons.mp hf).1 r2 (List.mem_cons_self _ _)
      (hall r1 (List.mem_cons_self _ _))
      (hall r2 (List.mem_cons_of_mem _ (List.mem_cons_self _ _)))
    have ha := hall r2 (List.mem_cons_of_mem _ (List.mem_cons_self _ _))
    rw [h12.2] at ha
    simp only [Route.accepts, Bool.and_eq_true, decide_eq_true_eq] at ha
    have hs := matchSegments_static _ _ (by decide) ha.2
    have hp : path = "/api/v1/rooms/available" := segments_injective _ _ hs
    apply hne
    rw [hp, ← ha.1]
    rfl

/-- C16: two registered routes that agree on every segment before position `k`
and both have a parameter segment at `k` give the parameter the same name, and
registering the table route by route meets no wildcard-name conflict (nor a
duplicate): it ends with the whole table registered. -/
theorem C16_no_wildcard_name_conflict (r1 r2 : Route) (h1 : r1 ∈ SetupRoutes)
    (h2 : r2 ∈ SetupRoutes) (k : Nat) (a b : String)
    (hpre : (segments r1.path).take k = (segments r2.path).take k)
    (ha : (segments r1.path)[k]? = some a) (hb : (segments r2.path)[k]? = some b)
    (hpa : isParam a = true) (hpb : isParam b = true) :
    a = b ∧ registerAll [] SetupRoutes = .ok SetupRoutes := by
  have hno : ∀ r1 ∈ SetupRoutes, ∀ r2 ∈ SetupRoutes,
      wildcardConflict (segments r1.path) (segments r2.path) = false := by decide
  refine ⟨wildcardConflict_names _ _ k a b (hno r1 h1 r2 h2) hpre ha hb hpa hpb, ?_⟩
  have h : (registerAll [] SetupRoutes).toOption = some SetupRoutes := by decide
  cases hr : registerAll [] SetupRoutes with
  | error e => rw [hr] at h; simp [Except.toOption] at h
  | ok t => rw [hr] at h; simp [Except.toOption] at h; rw [h]

/-- C16 at `GET /api/v1/guests/:id` and `GET /api/v1/guests/:id/history`, which
share the parameter `:id` at position 4. -/
theorem C16_no_wildcard_name_conflict_witness :
    (segments guestByID.path)[4]? = some ":id" ∧
    (segments guestHistory.path)[4]? = some ":id" ∧
    registerAll [] SetupRoutes = .ok SetupRoutes :=
  ⟨by decide, by decide,
   (C16_no_wildcard_name_conflict guestByID guestHistory (by decide) (by decide) 4 ":id" ":id"
      (by decide) (by decide) (by decide) (by decide) (by decide)).2⟩

end Hotel
